import Mathlib

/-!
Verification of the kinopub-api test harness (`tools/kinoapi_tests/run_tests.py`
and `tools/kinoapi_tests/extract_token.py`) against its natural-language
specification.

The Python code is shallowly embedded: every pure computation (JSON redaction,
token-file parsing, token-source resolution, the device-flow poll decision,
each test routine's response validation, and the orchestrator `_run_all`) is
translated into an executable Lean function over an explicit JSON value type.
I/O (HTTP exchanges, snapshot/summary files, printing, sleeping) is factored
out: every HTTP response a routine would receive is an explicit input, and the
`json.loads` parser of the Python standard library is an explicit function
parameter.  Python `None` and JSON `null` are identified (exactly as in the
source, where `json.loads` failure and a literal `null` body both leave
`resp.json` as `None`).  Python has no separate JSON float type in any code
path the claims touch, so numbers are modelled as integers; Python `bool` is a
subtype of `int`, which is modelled by separate constructors plus helper
predicates that mirror each `isinstance` test as written.
-/

namespace Kino

/-! ### Python string primitives (ASCII behaviour, as used by the source) -/

/-- Characters stripped by Python `str.strip()` / skipped by `splitlines`
    handling: space, tab, newline, carriage return, vertical tab, form feed. -/
def pyIsSpace (c : Char) : Bool :=
  c = ' ' || c = '\t' || c = '\n' || c = '\r' || c = '\x0b' || c = '\x0c'

/-- Python `str.strip()` (whitespace on both ends). -/
def pyStrip (s : String) : String :=
  String.mk (((s.data.dropWhile pyIsSpace).reverse.dropWhile pyIsSpace).reverse)

/-- Python `str.lstrip()`. -/
def pyLStrip (s : String) : String :=
  String.mk (s.data.dropWhile pyIsSpace)

/-- Python `str.lower()` (ASCII range, which covers every key the source lowers). -/
def pyLower (s : String) : String :=
  String.mk (s.data.map Char.toLower)

/-- `listStarts p cs`: does `cs` start with `p`?  (Python `str.startswith`.) -/
def listStarts : List Char → List Char → Bool
  | [], _ => true
  | _ :: _, [] => false
  | p :: ps, c :: cs => p == c && listStarts ps cs

/-- Python `s.startswith(pre)`. -/
def pyStartsWith (s pre : String) : Bool :=
  listStarts pre.data s.data

/-- Worker for `pySplitlines`: `acc` holds the current line reversed. -/
def pySplitlinesAux : List Char → List Char → List String
  | [], acc => if acc.isEmpty then [] else [String.mk acc.reverse]
  | '\r' :: '\n' :: rest, acc => String.mk acc.reverse :: pySplitlinesAux rest []
  | '\n' :: rest, acc => String.mk acc.reverse :: pySplitlinesAux rest []
  | '\r' :: rest, acc => String.mk acc.reverse :: pySplitlinesAux rest []
  | c :: rest, acc => pySplitlinesAux rest (c :: acc)

/-- Python `str.splitlines()` (for the `\n`, `\r\n`, `\r` separators; a trailing
    separator does not produce a final empty line). -/
def pySplitlines (s : String) : List String :=
  pySplitlinesAux s.data []

/-! ### JSON values

`null` doubles as Python `None` (the source never distinguishes them: a parsed
JSON `null`, a missing dictionary key, and an unparsable body all surface as
`None`).  `int`/`bool` are separate constructors; the `isinstance` helpers
below restore Python's `bool <: int` where the source relies on it. -/

inductive Json where
  | null
  | bool (b : Bool)
  | int (n : Int)
  | str (s : String)
  | arr (elems : List Json)
  | obj (members : List (String × Json))

namespace Json

mutual
/-- Structural equality on JSON values (decidable equality is derived from it). -/
def beq : Json → Json → Bool
  | .null, .null => true
  | .bool a, .bool b => a == b
  | .int a, .int b => a == b
  | .str a, .str b => a == b
  | .arr xs, .arr ys => beqArr xs ys
  | .obj xs, .obj ys => beqMembers xs ys
  | _, _ => false

def beqArr : List Json → List Json → Bool
  | [], [] => true
  | x :: xs, y :: ys => beq x y && beqArr xs ys
  | _, _ => false

def beqMembers : List (String × Json) → List (String × Json) → Bool
  | [], [] => true
  | (k, v) :: xs, (k2, v2) :: ys => k == k2 && beq v v2 && beqMembers xs ys
  | _, _ => false
end

mutual
theorem beq_iff : ∀ a b : Json, beq a b = true ↔ a = b
  | .null, b => by cases b <;> simp [beq]
  | .bool x, b => by cases b <;> simp [beq]
  | .int x, b => by cases b <;> simp [beq]
  | .str x, b => by cases b <;> simp [beq]
  | .arr xs, b => by cases b <;> simp [beq, beqArr_iff xs]
  | .obj xs, b => by cases b <;> simp [beq, beqMembers_iff xs]

theorem beqArr_iff : ∀ xs ys : List Json, beqArr xs ys = true ↔ xs = ys
  | [], ys => by cases ys <;> simp [beqArr]
  | x :: xs, ys => by
    cases ys <;> simp [beqArr, beq_iff x, beqArr_iff xs]

theorem beqMembers_iff : ∀ xs ys : List (String × Json), beqMembers xs ys = true ↔ xs = ys
  | [], ys => by cases ys <;> simp [beqMembers]
  | (k, v) :: xs, ys => by
    cases ys with
    | nil => simp [beqMembers]
    | cons hd tl =>
      obtain ⟨k2, v2⟩ := hd
      simp [beqMembers, beq_iff v, beqMembers_iff xs, and_assoc]
end

instance : DecidableEq Json := fun a b => decidable_of_iff _ (beq_iff a b)

end Json

/-- Python dictionary lookup `d.get(k)`: the value, or `None` when absent
    (first binding wins, as keys of a Python dict are unique). -/
def jGet : List (String × Json) → String → Json
  | [], _ => Json.null
  | (k, v) :: rest, key => if k = key then v else jGet rest key

/-- Python `k in d` (key presence, regardless of the value). -/
def hasKey : List (String × Json) → String → Bool
  | [], _ => false
  | (k, _) :: rest, key => k = key || hasKey rest key

/-- Python truthiness of a value (`if x:`). -/
def pyTruthy : Json → Bool
  | .null => false
  | .bool b => b
  | .int n => n ≠ 0
  | .str s => s ≠ ""
  | .arr xs => !xs.isEmpty
  | .obj kvs => !kvs.isEmpty

/-- Python `x or y` on JSON values (first truthy operand). -/
def pyOr (x y : Json) : Json :=
  if pyTruthy x then x else y

/-- Python truthiness of an `Optional[str]` (`if s:`). -/
def pyTruthyStrOpt : Option String → Bool
  | none => false
  | some s => s ≠ ""

/-- The Python idiom `x and x.strip()` on an `Optional[str]`: present,
    non-empty, and non-blank. -/
def pyNonBlank : Option String → Bool
  | none => false
  | some s => s ≠ "" && pyStrip s ≠ ""

/-- Python `type(x).__name__` for the values the validators report on. -/
def _type_name : Json → String
  | .null => "NoneType"
  | .bool _ => "bool"
  | .int _ => "int"
  | .str _ => "str"
  | .arr _ => "list"
  | .obj _ => "dict"

/-- Python `isinstance(x, dict)`. -/
def isDict : Json → Bool
  | .obj _ => true
  | _ => false

/-- Python `isinstance(x, list)`. -/
def isList : Json → Bool
  | .arr _ => true
  | _ => false

/-- Python `isinstance(x, str)`. -/
def isStr : Json → Bool
  | .str _ => true
  | _ => false

/-- Python `isinstance(x, bool)`. -/
def isBool : Json → Bool
  | .bool _ => true
  | _ => false

/-- Python `isinstance(x, int)` — `True` for `bool` too (`bool <: int`). -/
def pyIsInt : Json → Bool
  | .int _ => true
  | .bool _ => true
  | _ => false

/-- Python `isinstance(x, int) and not isinstance(x, bool)`. -/
def isIntStrict : Json → Bool
  | .int _ => true
  | _ => false

/-- The integer a value stands for where the source checked only
    `isinstance(x, int)` (so a `bool` counts, with `True == 1`). -/
def pyGetInt : Json → Option Int
  | .int n => some n
  | .bool b => some (if b then 1 else 0)
  | _ => none

/-- As `pyGetInt`, where the source also excluded `bool`. -/
def pyGetIntStrict : Json → Option Int
  | .int n => some n
  | _ => none

/-- Python `a or b` where `a : Optional[int]` and `b : int`
    (`0` is falsy, so it falls through to `b`). -/
def pyOrInt (a : Option Int) (b : Int) : Int :=
  match a with
  | some n => if n ≠ 0 then n else b
  | none => b

/-! ### Redaction filter (`run_tests.py` lines 47–76) -/

/-- `_SENSITIVE_JSON_KEYS` (the Python set, as a list; only membership is used). -/
def _SENSITIVE_JSON_KEYS : List String :=
  ["access_token", "refresh_token", "client_secret", "device_token", "code", "user_code"]

mutual
/-- `_redact_json`: best-effort redaction of sensitive fields in JSON snapshots.
    A dict key that lowercases into the sensitive set has its value replaced by
    the marker; other values are redacted recursively; lists map; scalars pass
    through.  (All dict keys are strings here, so the source's
    `isinstance(k, str)` guard is always true.) -/
def _redact_json : Json → Json
  | .null => .null
  | .obj kvs => .obj (redactMembers kvs)
  | .arr xs => .arr (redactArr xs)
  | x => x

def redactMembers : List (String × Json) → List (String × Json)
  | [] => []
  | (k, v) :: rest =>
    if _SENSITIVE_JSON_KEYS.contains (pyLower k) then
      (k, Json.str "<REDACTED>") :: redactMembers rest
    else
      (k, _redact_json v) :: redactMembers rest

def redactArr : List Json → List Json
  | [] => []
  | x :: rest => _redact_json x :: redactArr rest
end

/-- Is a JSON value a scalar (not an object and not an array)? -/
def valueIsScalar : Json → Bool
  | .arr _ => false
  | .obj _ => false
  | _ => true

mutual
/-- Spec-side comparator for the amended redaction claim: `redactSpecRel x y`
    says `y` is `x` with, at every nesting depth, each sensitive key's value
    (scalar or not) replaced by the marker, every other key kept in place with
    its value related recursively, every array kept at the same length
    pointwise, and every scalar unchanged. -/
def redactSpecRel : Json → Json → Bool
  | Json.obj kvs, Json.obj kvs2 => redactSpecRelMembers kvs kvs2
  | Json.arr xs, Json.arr ys => redactSpecRelArr xs ys
  | x, y => Json.beq x y

def redactSpecRelArr : List Json → List Json → Bool
  | [], [] => true
  | x :: xs, y :: ys => redactSpecRel x y && redactSpecRelArr xs ys
  | _, _ => false

def redactSpecRelMembers : List (String × Json) → List (String × Json) → Bool
  | [], [] => true
  | (k, v) :: rest, (k2, v2) :: rest2 =>
    k == k2 &&
      (if _SENSITIVE_JSON_KEYS.contains (pyLower k) then Json.beq v2 (Json.str "<REDACTED>")
       else redactSpecRel v v2) &&
      redactSpecRelMembers rest rest2
  | _, _ => false
end

/-! ### Token file and token resolution (`run_tests.py` lines 110–152) -/

/-- The inner JSON branch of `_read_token_file`: given the parsed object's
    members, `obj.get("access_token") or obj.get("token")`, kept when it is a
    non-blank string (lines 130–132). -/
def _token_from_json_obj (kvs : List (String × Json)) : Option String :=
  match pyOr (jGet kvs "access_token") (jGet kvs "token") with
  | Json.str t => if pyStrip t ≠ "" then some (pyStrip t) else none
  | _ => none

/-- The plain-text branch of `_read_token_file`: the first non-empty line not
    starting with `#`, stripped (lines 134–140). -/
def firstTokenLine : List String → Option String
  | [] => none
  | l :: rest =>
    let line := pyStrip l
    if line = "" || pyStartsWith line "#" then firstTokenLine rest
    else some line

/-- `_read_token_file`.  The file read is an explicit input (`none` models an
    unreadable or missing file, for which the source returns `None`), and
    `parse` is the `json.loads` of the Python standard library (`none` models
    a raised exception). -/
def _read_token_file (parse : String → Option Json) (raw0 : Option String) : Option String :=
  match raw0 with
  | none => none
  | some r =>
    let raw := pyStrip r
    if raw = "" then none
    else
      let fromJson : Option String :=
        if pyStartsWith (pyLStrip raw) "\x7b" then
          match parse raw with
          | some (Json.obj kvs) => _token_from_json_obj kvs
          | _ => none
        else none
      match fromJson with
      | some t => some t
      | none => firstTokenLine (pySplitlines raw)

/-- `_resolve_access_token`.  The environment variable is an explicit input;
    `file_tok` is the result of `_read_token_file` on the configured file. -/
def _resolve_access_token (token_arg env_tok file_tok : Option String) :
    Option String × String :=
  if pyNonBlank token_arg then (token_arg.map pyStrip, "arg")
  else if pyNonBlank env_tok then (env_tok.map pyStrip, "env")
  else
    match file_tok with
    | some t => if t ≠ "" then (some t, "file") else (none, "missing")
    | none => (none, "missing")

/-! ### Device-flow poll decision (`extract_token.py` lines 176–211)

One iteration of the polling loop, as a decision on the poll response: either
the token payload is returned, or polling continues with the interval to sleep
before the next attempt, or a fatal error is raised. -/

inductive PollStep where
  | success (payload : List (String × Json))
  | waiting (next_interval : Int)
  | fatal (message : String)
deriving DecidableEq

/-- A rendering of the offending payload for the unexpected-OAuth-error
    message (the Python message interpolates `repr` of the parsed dict; only
    the fatality of the outcome, not this text, is specified). -/
def jsonErrText : List (String × Json) → String
  | kvs => toString kvs.length

/-- The body of the `while` loop of `_device_flow` minus the HTTP call and the
    sleep: what the authenticator decides from one poll response.
    `rjson`/`rstatus`/`rraw` are the `HttpResponse` fields; `poll_interval` is
    the current interval. -/
def _device_flow_poll (rjson : Json) (rstatus : Int) (rraw : String)
    (poll_interval : Int) : PollStep :=
  match rjson with
  | Json.obj kvs =>
    if isStr (jGet kvs "access_token") then
      PollStep.success kvs
    else
      match jGet kvs "error" with
      | Json.str err =>
        if err = "authorization_pending" then PollStep.waiting poll_interval
        else if err = "slow_down" then PollStep.waiting (poll_interval + 5)
        else if err = "expired_token" ∨ err = "access_denied" then
          PollStep.fatal ("device_token: " ++ err)
        else
          PollStep.fatal ("device_token: unexpected OAuth error: " ++ jsonErrText kvs)
      | _ =>
        PollStep.fatal ("device_token: unexpected response HTTP " ++ toString rstatus
          ++ ": " ++ String.mk (rraw.data.take 200))
  | _ =>
    PollStep.fatal ("device_token: unexpected response HTTP " ++ toString rstatus
      ++ ": " ++ String.mk (rraw.data.take 200))

/-! ### Test outcomes and validation helpers (`run_tests.py` lines 229–308)

Each test routine is embedded as a pure function from the HTTP responses it
would receive to its `TestOutcome`; URL building, snapshotting and the request
side are I/O and carry no information into the outcome. -/

/-- `HttpResponse`, reduced to the fields a routine's outcome depends on.
    `json = Json.null` is Python `resp.json is None` (body absent, or not
    parseable as JSON). -/
structure Resp where
  status : Int
  json : Json
deriving DecidableEq

/-- `TestOutcome`.  `context_updates` values are JSON values (`Json.null` for
    Python `None`). -/
structure TestOutcome where
  status : String
  errors : List String
  context_updates : List (String × Json)
deriving DecidableEq

/-- `_require(cond, msg, errors)`: append `msg` when the condition fails
    (the mutable list becomes explicit state). -/
def _require (cond : Bool) (msg : String) (errors : List String) : List String :=
  if cond then errors else errors ++ [msg]

def _expect_obj (x : Json) (loc : String) (errors : List String) : List String :=
  _require (isDict x) (loc ++ ": expected object, got " ++ _type_name x) errors

def _expect_list (x : Json) (loc : String) (errors : List String) : List String :=
  _require (isList x) (loc ++ ": expected array, got " ++ _type_name x) errors

def _expect_str (x : Json) (loc : String) (errors : List String) : List String :=
  _require (isStr x) (loc ++ ": expected string, got " ++ _type_name x) errors

def _expect_int (x : Json) (loc : String) (errors : List String) : List String :=
  _require (isIntStrict x) (loc ++ ": expected int, got " ++ _type_name x) errors

def _expect_bool (x : Json) (loc : String) (errors : List String) : List String :=
  _require (isBool x) (loc ++ ": expected bool, got " ++ _type_name x) errors

/-- `_expect_num`: `isinstance(x, (int, float)) and not isinstance(x, bool)`.
    No claim-relevant code path carries a float, so numbers are integers here. -/
def _expect_num (x : Json) (loc : String) (errors : List String) : List String :=
  _require (isIntStrict x) (loc ++ ": expected number, got " ++ _type_name x) errors

/-! ### Per-endpoint test routines -/

/-- `test_user` (lines 311–334), as a function of the `/v1/user` response. -/
def test_user (resp : Resp) : TestOutcome :=
  let errors : List String := []
  let errors := _require (resp.json ≠ Json.null) "response is not JSON" errors
  let errors :=
    match resp.json with
    | Json.obj kvs =>
      let errors := _expect_int (jGet kvs "status") "status" errors
      let user := jGet kvs "user"
      let errors := _expect_obj user "user" errors
      match user with
      | Json.obj ukvs =>
        let errors := _expect_str (jGet ukvs "username") "user.username" errors
        let sub := jGet ukvs "subscription"
        let errors :=
          if sub ≠ Json.null then
            let errors := _expect_obj sub "user.subscription" errors
            match sub with
            | Json.obj skvs =>
              if hasKey skvs "active" then
                _expect_bool (jGet skvs "active") "user.subscription.active" errors
              else errors
            | _ => errors
          else errors
        let prof := jGet ukvs "profile"
        if prof ≠ Json.null then _expect_obj prof "user.profile" errors else errors
      | _ => errors
    | _ => _expect_obj resp.json "root" errors
  ⟨if errors.isEmpty then "PASS" else "FAIL", errors, []⟩

/-- `test_oauth_device_flow_pending` (lines 337–390): device-code request
    response and one token poll response. -/
def test_oauth_device_flow_pending (r_code r_poll : Resp) : TestOutcome :=
  let errors : List String := []
  let errors := _require (isDict r_code.json) "device_code: expected JSON object" errors
  let code : Json :=
    match r_code.json with
    | Json.obj kvs => jGet kvs "code"
    | _ => Json.null
  let errors :=
    match r_code.json with
    | Json.obj kvs =>
      let errors := _expect_str (jGet kvs "code") "device_code.code" errors
      let errors := _expect_str (jGet kvs "user_code") "device_code.user_code" errors
      let errors := _expect_str (jGet kvs "verification_uri") "device_code.verification_uri" errors
      let errors := _expect_int (jGet kvs "expires_in") "device_code.expires_in" errors
      _expect_int (jGet kvs "interval") "device_code.interval" errors
    | _ => errors
  if !pyTruthy code then
    ⟨"FAIL", errors ++ ["device_code: missing code; cannot test device_token polling"], []⟩
  else
    let errors := _require (isDict r_poll.json) "device_token poll: expected JSON object" errors
    let errors :=
      match r_poll.json with
      | Json.obj kvs =>
        if hasKey kvs "error" then _expect_str (jGet kvs "error") "device_token.error" errors
        else
          let errors := _expect_str (jGet kvs "access_token") "device_token.access_token" errors
          let errors := _expect_str (jGet kvs "refresh_token") "device_token.refresh_token" errors
          _expect_int (jGet kvs "expires_in") "device_token.expires_in" errors
      | _ => errors
    ⟨if errors.isEmpty then "PASS" else "FAIL", errors, []⟩

/-- First list element that is a dict with an `isinstance(·, int)` `id`
    (the inner loop of several pickers). -/
def firstIntId : List Json → Option Int
  | [] => none
  | it :: rest =>
    match it with
    | Json.obj kvs =>
      match pyGetInt (jGet kvs "id") with
      | some n => some n
      | none => firstIntId rest
    | _ => firstIntId rest

/-- `items[0]`'s `id` when the list is non-empty, its head a dict, and the id
    an `isinstance(·, int)` (the picking pattern shared by several routines,
    which inspect only the first element). -/
def firstItemDictId : List Json → Option Int
  | [] => none
  | it0 :: _ =>
    match it0 with
    | Json.obj kvs => pyGetInt (jGet kvs "id")
    | _ => none

/-- `test_api2_items_search` (lines 393–421). -/
def test_api2_items_search (resp : Resp) : TestOutcome × Option Int :=
  let errors : List String := []
  let errors := _require (resp.json ≠ Json.null) "api2 search: response is not JSON" errors
  let item_id : Option Int :=
    match resp.json with
    | Json.obj kvs =>
      match jGet kvs "items" with
      | Json.arr items => if items.isEmpty then none else firstItemDictId items
      | _ => none
    | _ => none
  let errors :=
    match resp.json with
    | Json.obj _ =>
      if item_id = none then errors ++ ["api2 search: could not pick itemId from items[]"]
      else errors
    | _ => _expect_obj resp.json "api2 search root" errors
  (⟨if errors.isEmpty then "PASS" else "FAIL", errors, []⟩, item_id)

/-- `test_api2_item_details` (lines 424–458): the `imdb`/`kinopoisk` ids of a
    present `item` object flow out through `context_updates`. -/
def test_api2_item_details (resp : Resp) : TestOutcome :=
  let errors : List String := []
  let errors := _require (resp.json ≠ Json.null) "api2 item: response is not JSON" errors
  let meta : List (String × Json) :=
    match resp.json with
    | Json.obj kvs =>
      if hasKey kvs "item" then
        match jGet kvs "item" with
        | Json.obj it =>
          [("imdb_id", if isIntStrict (jGet it "imdb") then jGet it "imdb" else Json.null),
           ("kinopoisk_id", if isIntStrict (jGet it "kinopoisk") then jGet it "kinopoisk" else Json.null)]
        | _ => [("imdb_id", Json.null), ("kinopoisk_id", Json.null)]
      else [("imdb_id", Json.null), ("kinopoisk_id", Json.null)]
    | _ => [("imdb_id", Json.null), ("kinopoisk_id", Json.null)]
  let errors :=
    match resp.json with
    | Json.obj kvs =>
      if hasKey kvs "item" then _expect_obj (jGet kvs "item") "api2 item.item" errors
      else if hasKey kvs "id" then _expect_int (jGet kvs "id") "api2 item.id" errors
      else errors
    | _ => _expect_obj resp.json "api2 item root" errors
  ⟨if errors.isEmpty then "PASS" else "FAIL", errors, meta⟩

/-- `test_api2_backdrop` (lines 461–485): 404 is an expected SKIP. -/
def test_api2_backdrop (resp : Resp) : TestOutcome :=
  if resp.status = 404 then
    ⟨"SKIP", ["api2 backdrop returned 404 (no data for this title or endpoint disabled)"], []⟩
  else
    let errors := _require (resp.status = 200)
      ("api2 backdrop: expected HTTP 200 (or 404), got " ++ toString resp.status) []
    ⟨if errors.isEmpty then "PASS" else "FAIL", errors, []⟩

/-- The shared check of the three notification calls in
    `test_api2_notifications_mutating`. -/
def _api2_notif_check (r : Resp) (what : String) (errors : List String) : List String :=
  let errors := _require (r.status = 200)
    ("api2 notifications " ++ what ++ ": expected HTTP 200, got " ++ toString r.status) errors
  if r.json ≠ Json.null && !isDict r.json then
    errors ++ ["api2 notifications " ++ what ++ ": expected JSON object (or null), got "
      ++ _type_name r.json]
  else errors

/-- `test_api2_notifications_mutating` (lines 488–530): add, check, delete. -/
def test_api2_notifications_mutating (r_add r_check r_del : Resp) : TestOutcome :=
  let errors : List String := []
  let errors := _api2_notif_check r_add "add" errors
  let errors := _api2_notif_check r_check "check" errors
  let errors := _api2_notif_check r_del "delete" errors
  ⟨if errors.isEmpty then "PASS" else "FAIL", errors, []⟩

/-- `test_api2_upload_report` (lines 533–555). -/
def test_api2_upload_report (resp : Resp) : TestOutcome :=
  let errors := _require (resp.status = 200 || resp.status = 201 || resp.status = 204)
    ("api2 upload_report: expected HTTP 200/201/204, got " ++ toString resp.status) []
  ⟨if errors.isEmpty then "PASS" else "FAIL", errors, []⟩

/-- `test_api2_item_collections` (lines 558–578). -/
def test_api2_item_collections (resp : Resp) : TestOutcome :=
  let errors : List String := []
  let errors := _require (resp.json ≠ Json.null) "api2 item collections: response is not JSON" errors
  let errors :=
    match resp.json with
    | Json.obj kvs =>
      if hasKey kvs "items" then _expect_list (jGet kvs "items") "api2 collections.items" errors
      else errors
    | _ => _expect_obj resp.json "api2 collections root" errors
  ⟨if errors.isEmpty then "PASS" else "FAIL", errors, []⟩

/-- `test_api2_imdb` (lines 581–602): 404 is an expected SKIP. -/
def test_api2_imdb (resp : Resp) : TestOutcome :=
  if resp.status = 404 then
    ⟨"SKIP", ["api2 imdb returned 404 (matches com.kinopub logs)"], []⟩
  else
    let errors := _require (resp.status = 200)
      ("api2 imdb: expected HTTP 200 (or 404), got " ++ toString resp.status) []
    let errors := _require (resp.json ≠ Json.null) "api2 imdb: response is not JSON" errors
    ⟨if errors.isEmpty then "PASS" else "FAIL", errors, []⟩

/-- The `for i, it in enumerate(items[:5])` loop of `test_types`: each element
    must be a dict with string `id` and `title`. -/
def _types_items_check : Nat → List Json → List String → List String
  | _, [], errors => errors
  | i, it :: rest, errors =>
    let errors := _expect_obj it ("types.items[" ++ toString i ++ "]") errors
    let errors :=
      match it with
      | Json.obj kvs =>
        let errors := _expect_str (jGet kvs "id") ("types.items[" ++ toString i ++ "].id") errors
        _expect_str (jGet kvs "title") ("types.items[" ++ toString i ++ "].title") errors
      | _ => errors
    _types_items_check (i + 1) rest errors

/-- `test_types` (lines 604–621); the second component is the (always empty)
    id list the source returns. -/
def test_types (resp : Resp) : TestOutcome × List Int :=
  let errors : List String := []
  let errors := _require (resp.json ≠ Json.null) "response is not JSON" errors
  let errors :=
    match resp.json with
    | Json.obj kvs =>
      let errors := _expect_int (jGet kvs "status") "types.status" errors
      let items := jGet kvs "items"
      let errors := _expect_list items "types.items" errors
      match items with
      | Json.arr xs => _types_items_check 0 (xs.take 5) errors
      | _ => errors
    | _ => _expect_obj resp.json "types.root" errors
  (⟨if errors.isEmpty then "PASS" else "FAIL", errors, []⟩, [])

/-- The genre-picking loop of `test_genres` (full list; an `id` that is an int
    and not a bool wins). -/
def _genres_pick : List Json → Option Int
  | [] => none
  | it :: rest =>
    match it with
    | Json.obj kvs =>
      match pyGetIntStrict (jGet kvs "id") with
      | some n => some n
      | none => _genres_pick rest
    | _ => _genres_pick rest

/-- The `enumerate(items[:5])` loop of `test_genres`: int `id`, string `title`. -/
def _genres_items_check : Nat → List Json → List String → List String
  | _, [], errors => errors
  | i, it :: rest, errors =>
    let errors := _expect_obj it ("genres.items[" ++ toString i ++ "]") errors
    let errors :=
      match it with
      | Json.obj kvs =>
        let errors := _expect_int (jGet kvs "id") ("genres.items[" ++ toString i ++ "].id") errors
        _expect_str (jGet kvs "title") ("genres.items[" ++ toString i ++ "].title") errors
      | _ => errors
    _genres_items_check (i + 1) rest errors

/-- `test_genres` (lines 624–647). -/
def test_genres (resp : Resp) : TestOutcome × Option Int :=
  let errors : List String := []
  let errors := _require (resp.json ≠ Json.null) "response is not JSON" errors
  let genre_id : Option Int :=
    match resp.json with
    | Json.obj kvs =>
      match jGet kvs "items" with
      | Json.arr xs => _genres_pick xs
      | _ => none
    | _ => none
  let errors :=
    match resp.json with
    | Json.obj kvs =>
      let errors := _expect_int (jGet kvs "status") "genres.status" errors
      let items := jGet kvs "items"
      let errors := _expect_list items "genres.items" errors
      match items with
      | Json.arr xs => _genres_items_check 0 (xs.take 5) errors
      | _ => errors
    | _ => _expect_obj resp.json "genres.root" errors
  (⟨if errors.isEmpty then "PASS" else "FAIL", errors, []⟩, genre_id)

/-- The `enumerate(items[:5])` loop of `test_countries`. -/
def _countries_items_check : Nat → List Json → List String → List String
  | _, [], errors => errors
  | i, it :: rest, errors =>
    let errors := _expect_obj it ("countries.items[" ++ toString i ++ "]") errors
    let errors :=
      match it with
      | Json.obj kvs =>
        let errors := _expect_int (jGet kvs "id") ("countries.items[" ++ toString i ++ "].id") errors
        _expect_str (jGet kvs "title") ("countries.items[" ++ toString i ++ "].title") errors
      | _ => errors
    _countries_items_check (i + 1) rest errors

/-- `test_countries` (lines 650–667). -/
def test_countries (resp : Resp) : TestOutcome :=
  let errors : List String := []
  let errors := _require (resp.json ≠ Json.null) "response is not JSON" errors
  let errors :=
    match resp.json with
    | Json.obj kvs =>
      let errors := _expect_int (jGet kvs "status") "countries.status" errors
      let items := jGet kvs "items"
      let errors := _expect_list items "countries.items" errors
      match items with
      | Json.arr xs => _countries_items_check 0 (xs.take 5) errors
      | _ => errors
    | _ => _expect_obj resp.json "countries.root" errors
  ⟨if errors.isEmpty then "PASS" else "FAIL", errors, []⟩

/-- The `enumerate(items[:5])` loop of `test_subtitles`: `id` may be int or
    string, `lang`/`title` strings, every field optional/nullable. -/
def _subtitles_items_check : Nat → List Json → List String → List String
  | _, [], errors => errors
  | i, it :: rest, errors =>
    let errors := _expect_obj it ("subtitles.items[" ++ toString i ++ "]") errors
    let errors :=
      match it with
      | Json.obj kvs =>
        let errors :=
          if hasKey kvs "id" && jGet kvs "id" ≠ Json.null then
            let vid := jGet kvs "id"
            if isBool vid || !(pyIsInt vid || isStr vid) then
              errors ++ ["subtitles.items[" ++ toString i ++ "].id: expected int|string, got "
                ++ _type_name vid]
            else errors
          else errors
        let errors :=
          if hasKey kvs "lang" && jGet kvs "lang" ≠ Json.null then
            _expect_str (jGet kvs "lang") ("subtitles.items[" ++ toString i ++ "].lang") errors
          else errors
        if hasKey kvs "title" && jGet kvs "title" ≠ Json.null then
          _expect_str (jGet kvs "title") ("subtitles.items[" ++ toString i ++ "].title") errors
        else errors
      | _ => errors
    _subtitles_items_check (i + 1) rest errors

/-- `test_subtitles` (lines 670–697): the root `status` is optional. -/
def test_subtitles (resp : Resp) : TestOutcome :=
  let errors : List String := []
  let errors := _require (resp.json ≠ Json.null) "response is not JSON" errors
  let errors :=
    match resp.json with
    | Json.obj kvs =>
      let errors :=
        if hasKey kvs "status" && jGet kvs "status" ≠ Json.null then
          _expect_int (jGet kvs "status") "subtitles.status" errors
        else errors
      let items := jGet kvs "items"
      let errors := _expect_list items "subtitles.items" errors
      match items with
      | Json.arr xs => _subtitles_items_check 0 (xs.take 5) errors
      | _ => errors
    | _ => _expect_obj resp.json "subtitles.root" errors
  ⟨if errors.isEmpty then "PASS" else "FAIL", errors, []⟩

/-- `test_search` (lines 700–715). -/
def test_search (resp : Resp) : TestOutcome :=
  let errors : List String := []
  let errors := _require (resp.json ≠ Json.null) "response is not JSON" errors
  let errors :=
    match resp.json with
    | Json.obj kvs => _expect_list (jGet kvs "items") "items" errors
    | _ => _expect_obj resp.json "root" errors
  ⟨if errors.isEmpty then "PASS" else "FAIL", errors, []⟩

/-- `test_similar` (lines 718–733). -/
def test_similar (resp : Resp) : TestOutcome :=
  let errors : List String := []
  let errors := _require (resp.json ≠ Json.null) "response is not JSON" errors
  let errors :=
    match resp.json with
    | Json.obj kvs => _expect_list (jGet kvs "items") "items" errors
    | _ => _expect_obj resp.json "root" errors
  ⟨if errors.isEmpty then "PASS" else "FAIL", errors, []⟩

/-- `test_shortcut` (lines 736–756): the shortcut name and optional genre only
    shape the request, not the validation. -/
def test_shortcut (resp : Resp) : TestOutcome :=
  let errors : List String := []
  let errors := _require (resp.json ≠ Json.null) "response is not JSON" errors
  let errors :=
    match resp.json with
    | Json.obj kvs => _expect_list (jGet kvs "items") "items" errors
    | _ => _expect_obj resp.json "root" errors
  ⟨if errors.isEmpty then "PASS" else "FAIL", errors, []⟩

/-- `test_trailer` (lines 759–799): `trailer` may be an object or an array. -/
def test_trailer (resp : Resp) : TestOutcome :=
  let errors : List String := []
  let errors := _require (resp.json ≠ Json.null) "response is not JSON" errors
  let errors :=
    match resp.json with
    | Json.obj kvs =>
      let errors :=
        if hasKey kvs "status" && jGet kvs "status" ≠ Json.null then
          _expect_int (jGet kvs "status") "status" errors
        else errors
      let tr := jGet kvs "trailer"
      if tr ≠ Json.null then
        match tr with
        | Json.obj tkvs =>
          let tid := jGet tkvs "id"
          let errors :=
            if (tid ≠ Json.null && !(isStr tid || pyIsInt tid)) || isBool tid then
              errors ++ ["trailer.id: expected string|int, got " ++ _type_name tid]
            else errors
          let errors :=
            if hasKey tkvs "url" && jGet tkvs "url" ≠ Json.null then
              _expect_str (jGet tkvs "url") "trailer.url" errors
            else errors
          if hasKey tkvs "files" && jGet tkvs "files" ≠ Json.null then
            _expect_list (jGet tkvs "files") "trailer.files" errors
          else errors
        | Json.arr ts =>
          if !ts.isEmpty then
            let t0 := ts.headD Json.null
            let errors := _expect_obj t0 "trailer[0]" errors
            match t0 with
            | Json.obj t0kvs =>
              let tid := jGet t0kvs "id"
              let errors :=
                if tid ≠ Json.null && (isBool tid || !(isStr tid || pyIsInt tid)) then
                  errors ++ ["trailer[0].id: expected string|int, got " ++ _type_name tid]
                else errors
              if hasKey t0kvs "url" && jGet t0kvs "url" ≠ Json.null then
                _expect_str (jGet t0kvs "url") "trailer[0].url" errors
              else errors
            | _ => errors
          else errors
        | _ => errors ++ ["trailer: expected object or array, got " ++ _type_name tr]
      else errors
    | _ => _expect_obj resp.json "root" errors
  ⟨if errors.isEmpty then "PASS" else "FAIL", errors, []⟩

/-- `test_comments` (lines 802–818). -/
def test_comments (resp : Resp) : TestOutcome :=
  let errors : List String := []
  let errors := _require (resp.json ≠ Json.null) "response is not JSON" errors
  let errors :=
    match resp.json with
    | Json.obj kvs =>
      let errors := _expect_int (jGet kvs "status") "status" errors
      _expect_list (jGet kvs "comments") "comments" errors
    | _ => _expect_obj resp.json "root" errors
  ⟨if errors.isEmpty then "PASS" else "FAIL", errors, []⟩

/-- `test_vote_mutating` (lines 821–835). -/
def test_vote_mutating (resp : Resp) : TestOutcome :=
  let errors : List String := []
  let errors := _require (resp.json ≠ Json.null) "response is not JSON" errors
  let errors :=
    match resp.json with
    | Json.obj kvs => _expect_bool (jGet kvs "voted") "voted" errors
    | _ => _expect_obj resp.json "root" errors
  ⟨if errors.isEmpty then "PASS" else "FAIL", errors, []⟩

/-- `test_collections` (lines 838–860). -/
def test_collections (resp : Resp) : TestOutcome × Option Int :=
  let errors : List String := []
  let errors := _require (resp.json ≠ Json.null) "response is not JSON" errors
  let collection_id : Option Int :=
    match resp.json with
    | Json.obj kvs =>
      match jGet kvs "items" with
      | Json.arr items => if items.isEmpty then none else firstItemDictId items
      | _ => none
    | _ => none
  let errors :=
    match resp.json with
    | Json.obj kvs => _expect_list (jGet kvs "items") "items" errors
    | _ => _expect_obj resp.json "root" errors
  let errors :=
    if collection_id = none then errors ++ ["could not pick collectionId from /v1/collections"]
    else errors
  (⟨if errors.isEmpty then "PASS" else "FAIL", errors, []⟩, collection_id)

/-- The candidate loop of `test_collections_sort` (lines 874–882): the first
    sort value whose attempt returns HTTP 200 with `{items: [...]}`. -/
def _collections_sort_pick (att : String → Resp) : List String → Option String
  | [] => none
  | sort :: rest =>
    let resp := att sort
    if resp.status = 200 then
      match resp.json with
      | Json.obj kvs =>
        match jGet kvs "items" with
        | Json.arr _ => some sort
        | _ => _collections_sort_pick att rest
      | _ => _collections_sort_pick att rest
    else _collections_sort_pick att rest

/-- `test_collections_sort` (lines 863–913).  `att` gives the response of the
    probe for each candidate sort value; `ok` that of the confirming request. -/
def test_collections_sort (att ok : String → Resp) : TestOutcome :=
  match _collections_sort_pick att ["updated-", "created-", "views-", "watchers-"] with
  | none =>
    ⟨"FAIL",
      ["collections sort: none of the candidate sort values returned a normal {items: []} payload"],
      []⟩
  | some used =>
    let resp_ok := ok used
    let errors := _require (resp_ok.status = 200)
      ("collections sort: expected HTTP 200, got " ++ toString resp_ok.status) []
    let errors := _require (resp_ok.json ≠ Json.null) "collections sort: response is not JSON" errors
    let errors :=
      match resp_ok.json with
      | Json.obj kvs =>
        let errors :=
          if hasKey kvs "status" && jGet kvs "status" ≠ Json.null then
            _expect_int (jGet kvs "status") "collections.sort.status" errors
          else errors
        _expect_list (jGet kvs "items") "collections.sort.items" errors
      | _ => _expect_obj resp_ok.json "collections.sort.root" errors
    ⟨if errors.isEmpty then "PASS" else "FAIL", errors, [("sort", Json.str used)]⟩

/-- `test_collection_items` (lines 916–931). -/
def test_collection_items (resp : Resp) : TestOutcome :=
  let errors : List String := []
  let errors := _require (resp.json ≠ Json.null) "response is not JSON" errors
  let errors :=
    match resp.json with
    | Json.obj kvs => _expect_list (jGet kvs "items") "items" errors
    | _ => _expect_obj resp.json "root" errors
  ⟨if errors.isEmpty then "PASS" else "FAIL", errors, []⟩

/-- One reference name's check in `test_references` (lines 936–945): here
    `status` is checked on key presence alone. -/
def _reference_check (name : String) (resp : Resp) (errors : List String) : List String :=
  let errors := _require (resp.json ≠ Json.null) (name ++ ": response is not JSON") errors
  match resp.json with
  | Json.obj kvs =>
    let errors :=
      if hasKey kvs "status" then _expect_int (jGet kvs "status") (name ++ ".status") errors
      else errors
    _expect_list (jGet kvs "items") (name ++ ".items") errors
  | _ => _expect_obj resp.json (name ++ ".root") errors

/-- The five reference catalogs probed by `test_references`. -/
def _reference_names : List String :=
  ["server-location", "streaming-type", "voiceover-type", "voiceover-author", "video-quality"]

/-- `test_references` (lines 934–946): one response per reference name, errors
    accumulated across the loop. -/
def test_references (resp : String → Resp) : TestOutcome :=
  let errors := _reference_names.foldl (fun errs name => _reference_check name (resp name) errs) []
  ⟨if errors.isEmpty then "PASS" else "FAIL", errors, []⟩

/-- `test_tv` (lines 949–959). -/
def test_tv (resp : Resp) : TestOutcome :=
  let errors : List String := []
  let errors := _require (resp.json ≠ Json.null) "tv: response is not JSON" errors
  let errors :=
    match resp.json with
    | Json.obj kvs =>
      let errors := _expect_int (jGet kvs "status") "tv.status" errors
      _expect_list (jGet kvs "channels") "tv.channels" errors
    | _ => _expect_obj resp.json "tv.root" errors
  ⟨if errors.isEmpty then "PASS" else "FAIL", errors, []⟩

/-- One watching list's check in `test_watching` (lines 974–981). -/
def _watching_list_check (name : String) (r : Resp) (errors : List String) : List String :=
  let errors := _require (r.json ≠ Json.null) ("watching/" ++ name ++ ": response is not JSON") errors
  match r.json with
  | Json.obj kvs => _expect_list (jGet kvs "items") ("watching/" ++ name ++ ".items") errors
  | _ => _expect_obj r.json ("watching/" ++ name ++ ".root") errors

/-- `test_watching` (lines 962–983): info response, then the movies and
    serials lists; the returned context id is always `None` in the source. -/
def test_watching (r_info r_movies r_serials : Resp) : TestOutcome × Option Int :=
  let errors : List String := []
  let errors := _require (r_info.json ≠ Json.null) "watching: response is not JSON" errors
  let errors :=
    match r_info.json with
    | Json.obj kvs =>
      if hasKey kvs "status" then _expect_int (jGet kvs "status") "watching.status" errors
      else errors
    | _ => _expect_obj r_info.json "watching.root" errors
  let errors := _watching_list_check "movies" r_movies errors
  let errors := _watching_list_check "serials" r_serials errors
  (⟨if errors.isEmpty then "PASS" else "FAIL", errors, []⟩, none)

/-- Python `isinstance(r.json, dict) and isinstance(r.json.get("status"), int)`
    (the `{status:int}` shape check of the mutating probes; plain
    `isinstance`, so a bool status passes). -/
def statusIntOk (r : Resp) : Bool :=
  match r.json with
  | Json.obj kvs => pyIsInt (jGet kvs "status")
  | _ => false

/-- `test_watching_mutating` (lines 986–998). -/
def test_watching_mutating (r_mt r_t : Resp) : TestOutcome :=
  let errors : List String := []
  let errors := _require (statusIntOk r_mt) "marktime: expected {status:int}" errors
  let errors := _require (statusIntOk r_t) "toggle: expected {status:int,...}" errors
  ⟨if errors.isEmpty then "PASS" else "FAIL", errors, []⟩

/-- `test_watchlist_toggle_mutating` (lines 1001–1008): two toggles, same check. -/
def test_watchlist_toggle_mutating (r1 r2 : Resp) : TestOutcome :=
  let errors : List String := []
  let errors := _require (statusIntOk r1) "togglewatchlist: expected {status:int,...}" errors
  let errors := _require (statusIntOk r2) "togglewatchlist: expected {status:int,...}" errors
  ⟨if errors.isEmpty then "PASS" else "FAIL", errors, []⟩

/-- The id extraction from the first history record in `test_history`
    (lines 1021–1029): the pair is `(media_id, item_id)`. -/
def _history_first_ids (hs : List Json) : Option Int × Option Int :=
  match hs with
  | [] => (none, none)
  | h0 :: _ =>
    match h0 with
    | Json.obj hk =>
      let item_id :=
        match jGet hk "item" with
        | Json.obj ik => pyGetInt (jGet ik "id")
        | _ => none
      let media_id :=
        match jGet hk "media" with
        | Json.obj mk => pyGetInt (jGet mk "id")
        | _ => none
      (media_id, item_id)
    | _ => (none, none)

/-- `test_history` (lines 1011–1036): outcome plus the picked
    `(media_id, item_id)`. -/
def test_history (resp : Resp) : TestOutcome × (Option Int × Option Int) :=
  let errors : List String := []
  let errors := _require (resp.json ≠ Json.null) "history: response is not JSON" errors
  let picked : Option Int × Option Int :=
    match resp.json with
    | Json.obj kvs =>
      if hasKey kvs "history" && jGet kvs "history" ≠ Json.null then
        match jGet kvs "history" with
        | Json.arr hs => if hs.isEmpty then (none, none) else _history_first_ids hs
        | _ => (none, none)
      else (none, none)
    | _ => (none, none)
  let errors :=
    match resp.json with
    | Json.obj kvs =>
      if hasKey kvs "history" && jGet kvs "history" ≠ Json.null then
        _expect_list (jGet kvs "history") "history.history" errors
      else errors ++ ["history response missing 'history' field"]
    | _ => _expect_obj resp.json "history.root" errors
  (⟨if errors.isEmpty then "PASS" else "FAIL", errors, []⟩, picked)

/-- The per-endpoint acceptance check of `test_history_mutating`: HTTP 200
    with either no JSON body or a `{status:int}` object. -/
def _clear_ok (r : Resp) : Bool :=
  r.status = 200 &&
    (r.json = Json.null ||
      (match r.json with
       | Json.obj kvs => pyIsInt (jGet kvs "status")
       | _ => false))

/-- `test_history_mutating` (lines 1039–1063). -/
def test_history_mutating (media_id season_id item_id : Option Int)
    (r_media r_season r_item : Resp) : TestOutcome :=
  let errors : List String := []
  let errors :=
    match media_id with
    | some _ =>
      _require (_clear_ok r_media)
        "clear-for-media: expected HTTP 200 with JSON null (or {status:int})" errors
    | none => errors ++ ["clear-for-media skipped: no media_id available"]
  let errors :=
    match season_id with
    | some _ =>
      _require (_clear_ok r_season)
        "clear-for-season: expected HTTP 200 with JSON null (or {status:int})" errors
    | none => errors ++ ["clear-for-season skipped: no season_id available"]
  let errors :=
    match item_id with
    | some _ =>
      _require (_clear_ok r_item)
        "clear-for-item: expected HTTP 200 with JSON null (or {status:int})" errors
    | none => errors ++ ["clear-for-item skipped: no item_id available"]
  ⟨if errors.isEmpty then "PASS" else "FAIL", errors, []⟩

/-- `test_device` (lines 1066–1118): device list, current-device info, one
    device's record and its settings.  The returned id prefers `/v1/device/info`
    over the first entry of the device list. -/
def test_device (r_list r_info r_get r_settings : Resp) : TestOutcome × Option Int :=
  let errors : List String := []
  let errors := _require (r_list.json ≠ Json.null) "device: response is not JSON" errors
  let id_from_list : Option Int :=
    match r_list.json with
    | Json.obj kvs =>
      match jGet kvs "devices" with
      | Json.arr devs => if devs.isEmpty then none else firstItemDictId devs
      | _ => none
    | _ => none
  let errors :=
    match r_list.json with
    | Json.obj kvs =>
      let devs := jGet kvs "devices"
      let errors := _expect_list devs "device.devices" errors
      match devs with
      | Json.arr ds =>
        if !ds.isEmpty then
          match ds.headD Json.null with
          | Json.obj dk =>
            if hasKey dk "is_browser" && jGet dk "is_browser" ≠ Json.null then
              _expect_bool (jGet dk "is_browser") "device.devices[0].is_browser" errors
            else errors
          | _ => errors
        else errors
      | _ => errors
    | _ => _expect_obj r_list.json "device.root" errors
  let errors := _require (r_info.json ≠ Json.null) "device/info: response is not JSON" errors
  let id_from_info : Option Int :=
    match r_info.json with
    | Json.obj kvs =>
      match jGet kvs "device" with
      | Json.obj dk => pyGetInt (jGet dk "id")
      | _ => none
    | _ => none
  let errors :=
    match r_info.json with
    | Json.obj _ => errors
    | _ => _expect_obj r_info.json "device/info.root" errors
  let device_id :=
    match id_from_info with
    | some n => some n
    | none => id_from_list
  match device_id with
  | none =>
    (⟨"FAIL", errors ++ ["could not pick deviceId from /v1/device or /v1/device/info"], []⟩, none)
  | some n =>
    let errors := _require (r_get.json ≠ Json.null) "device/{id}: response is not JSON" errors
    let errors := _require (r_settings.json ≠ Json.null) "device/{id}/settings: response is not JSON" errors
    let errors :=
      match r_settings.json with
      | Json.obj kvs =>
        let errors := _expect_int (jGet kvs "status") "device.settings.status" errors
        let st := jGet kvs "settings"
        if st ≠ Json.null then _expect_obj st "device.settings.settings" errors
        else errors
      | _ => _expect_obj r_settings.json "device/settings.root" errors
    (⟨if errors.isEmpty then "PASS" else "FAIL", errors, []⟩, some n)

/-- The `selected` scan of `_extract_setting_value_int` (lines 1133–1139):
    the first option whose `selected` equals `1` or `True` and whose `id` is
    an int. -/
def _setting_selected : List Json → Option Int
  | [] => none
  | opt :: rest =>
    match opt with
    | Json.obj ok =>
      let sel_ok : Bool :=
        match jGet ok "selected" with
        | Json.int n => n == 1
        | Json.bool b => b
        | _ => false
      if sel_ok then
        match pyGetInt (jGet ok "id") with
        | some n => some n
        | none => _setting_selected rest
      else _setting_selected rest
    | _ => _setting_selected rest

/-- `_extract_setting_value_int` (lines 1121–1144). -/
def _extract_setting_value_int (settings_map : Json) (key : String) : Option Int :=
  match settings_map with
  | Json.obj smk =>
    match jGet smk key with
    | Json.obj ek =>
      match jGet ek "value" with
      | Json.bool b => some (if b then 1 else 0)
      | Json.int n => some n
      | Json.arr opts =>
        match _setting_selected opts with
        | some n => some n
        | none => firstIntId opts
      | _ => none
    | _ => none
  | _ => none

/-- The required-keys loop of `test_device_mutating` (lines 1167–1174): the
    first key whose current value cannot be extracted as an int. -/
def _first_missing_setting (settings_map : Json) : List String → Option String
  | [] => none
  | k :: rest =>
    if _extract_setting_value_int settings_map k = none then some k
    else _first_missing_setting settings_map rest

/-- The keys `test_device_mutating` re-submits. -/
def _device_required_keys : List String :=
  ["supportSsl", "supportHevc", "supportHdr", "support4k", "mixedPlaylist",
   "streamingType", "serverLocation"]

/-- `test_device_mutating` (lines 1147–1180): notify, read settings, re-submit
    the current values. -/
def test_device_mutating (r_notify r_settings_get r_upd : Resp) : TestOutcome :=
  let errors : List String := []
  let errors := _require (statusIntOk r_notify) "device/notify: expected {status:int}" errors
  let settings_map : Json :=
    match r_settings_get.json with
    | Json.obj kvs => jGet kvs "settings"
    | _ => Json.null
  match _first_missing_setting settings_map _device_required_keys with
  | some k =>
    ⟨"FAIL", errors ++ ["device settings update skipped: could not extract int value for " ++ k], []⟩
  | none =>
    let errors := _require (statusIntOk r_upd) "device settings update: expected {status:int}" errors
    ⟨if errors.isEmpty then "PASS" else "FAIL", errors, []⟩

/-- `_pick_first_item_id` (lines 1183–1190). -/
def _pick_first_item_id (items_resp : Json) : Option Int :=
  match items_resp with
  | Json.obj kvs =>
    match jGet kvs "items" with
    | Json.arr items => if items.isEmpty then none else firstItemDictId items
    | _ => none
  | _ => none

/-- `test_items_listing` (lines 1193–1241): the items-listing probe, returning
    the outcome and the picked item id. -/
def test_items_listing (resp : Resp) : TestOutcome × Option Int :=
  let errors : List String := []
  let errors := _require (resp.json ≠ Json.null) "response is not JSON" errors
  let item_id : Option Int := _pick_first_item_id resp.json
  let errors :=
    match resp.json with
    | Json.obj kvs =>
      let errors :=
        if hasKey kvs "status" && jGet kvs "status" ≠ Json.null then
          _expect_int (jGet kvs "status") "status" errors
        else errors
      let items := jGet kvs "items"
      let errors := _expect_list items "items" errors
      let errors :=
        match items with
        | Json.arr xs =>
          if !xs.isEmpty then
            let it0 := xs.headD Json.null
            let errors := _expect_obj it0 "items[0]" errors
            match it0 with
            | Json.obj ik =>
              let errors := _expect_int (jGet ik "id") "items[0].id" errors
              let errors := _expect_str (jGet ik "title") "items[0].title" errors
              _expect_str (jGet ik "type") "items[0].type" errors
            | _ => errors
          else errors
        | _ => errors
      let pag := jGet kvs "pagination"
      if pag ≠ Json.null then
        let errors := _expect_obj pag "pagination" errors
        match pag with
        | Json.obj pk =>
          let errors := _expect_int (jGet pk "total") "pagination.total" errors
          let errors := _expect_int (jGet pk "current") "pagination.current" errors
          _expect_int (jGet pk "perpage") "pagination.perpage" errors
        | _ => errors
      else errors
    | _ => _expect_obj resp.json "root" errors
  let errors :=
    if item_id = none then errors ++ ["could not pick itemId from /v1/items response"]
    else errors
  (⟨if errors.isEmpty then "PASS" else "FAIL", errors, []⟩, item_id)

/-- `test_items_listing_filters` (lines 1244–1284). -/
def test_items_listing_filters (resp : Resp) : TestOutcome :=
  let errors : List String := []
  let errors := _require (resp.status = 200)
    ("items filters: expected HTTP 200, got " ++ toString resp.status) errors
  let errors := _require (resp.json ≠ Json.null) "items filters: response is not JSON" errors
  let errors :=
    match resp.json with
    | Json.obj kvs =>
      let errors :=
        if hasKey kvs "status" && jGet kvs "status" ≠ Json.null then
          _expect_int (jGet kvs "status") "items_filters.status" errors
        else errors
      _expect_list (jGet kvs "items") "items_filters.items" errors
    | _ => _expect_obj resp.json "items_filters.root" errors
  ⟨if errors.isEmpty then "PASS" else "FAIL", errors, []⟩

/-- The season/episode sweep of `_pick_media_id_from_item` (lines 1296–1305). -/
def firstEpisodeId : List Json → Option Int
  | [] => none
  | s :: rest =>
    match s with
    | Json.obj skvs =>
      match jGet skvs "episodes" with
      | Json.arr es =>
        match firstIntId es with
        | some n => some n
        | none => firstEpisodeId rest
      | _ => firstEpisodeId rest
    | _ => firstEpisodeId rest

/-- `_pick_media_id_from_item` (lines 1287–1306): `videos[].id` first, else
    `seasons[].episodes[].id`. -/
def _pick_media_id_from_item (item : Json) : Option Int :=
  match item with
  | Json.obj kvs =>
    let from_videos :=
      match jGet kvs "videos" with
      | Json.arr vs => firstIntId vs
      | _ => none
    match from_videos with
    | some n => some n
    | none =>
      match jGet kvs "seasons" with
      | Json.arr ss => firstEpisodeId ss
      | _ => none
  | _ => none

/-- `_pick_season_id_from_item` (lines 1309–1317). -/
def _pick_season_id_from_item (item : Json) : Option Int :=
  match item with
  | Json.obj kvs =>
    match jGet kvs "seasons" with
    | Json.arr ss => firstIntId ss
    | _ => none
  | _ => none

/-- `test_item_details` (lines 1320–1350): outcome and the picked media id. -/
def test_item_details (resp : Resp) : TestOutcome × Option Int :=
  let errors : List String := []
  let errors := _require (resp.json ≠ Json.null) "response is not JSON" errors
  let media_id : Option Int :=
    match resp.json with
    | Json.obj kvs =>
      match jGet kvs "item" with
      | Json.obj ik => _pick_media_id_from_item (Json.obj ik)
      | _ => none
    | _ => none
  let errors :=
    match resp.json with
    | Json.obj kvs =>
      let item := jGet kvs "item"
      let errors := _expect_obj item "item" errors
      match item with
      | Json.obj ik =>
        let errors := _expect_int (jGet ik "id") "item.id" errors
        let errors := _expect_str (jGet ik "title") "item.title" errors
        let errors := _expect_str (jGet ik "type") "item.type" errors
        let duration := jGet ik "duration"
        if duration ≠ Json.null then
          let errors := _expect_obj duration "item.duration" errors
          match duration with
          | Json.obj dk =>
            if hasKey dk "average" && jGet dk "average" ≠ Json.null then
              _expect_num (jGet dk "average") "item.duration.average" errors
            else errors
          | _ => errors
        else errors
      | _ => errors
    | _ => _expect_obj resp.json "root" errors
  let errors :=
    if media_id = none then
      errors ++ ["could not pick mediaId from item details (videos/seasons/episodes)"]
    else errors
  (⟨if errors.isEmpty then "PASS" else "FAIL", errors, []⟩, media_id)

/-- The stream-type scan of `test_media_links` (lines 1375–1379). -/
def _first_truthy_key (ukvs : List (String × Json)) : List String → Option String
  | [] => none
  | t :: rest => if pyTruthy (jGet ukvs t) then some t else _first_truthy_key ukvs rest

/-- `test_media_links` (lines 1353–1386): outcome plus the chosen
    `(file, stream type)` for the follow-up probe. -/
def test_media_links (resp : Resp) : TestOutcome × Option (String × String) :=
  let errors : List String := []
  let errors := _require (resp.json ≠ Json.null) "response is not JSON" errors
  let state : List String × Option (String × String) :=
    match resp.json with
    | Json.obj kvs =>
      let files := jGet kvs "files"
      let errors := _expect_list files "files" errors
      match files with
      | Json.arr fs =>
        if !fs.isEmpty then
          let f0 := fs.headD Json.null
          let errors := _expect_obj f0 "files[0]" errors
          match f0 with
          | Json.obj fk =>
            match jGet fk "file" with
            | Json.str fstr =>
              let urls := pyOr (jGet fk "urls") (jGet fk "url")
              let chosen_type :=
                match urls with
                | Json.obj ukvs => _first_truthy_key ukvs ["hls4", "hls2", "hls", "http"]
                | _ => none
              (errors, some (fstr, chosen_type.getD "http"))
            | _ => (errors ++ ["files[0].file missing or not a string"], none)
          | _ => (errors, none)
        else (errors, none)
      | _ => (errors, none)
    | _ => (_expect_obj resp.json "root" errors, none)
  let errors := state.1
  (⟨if errors.isEmpty then "PASS" else "FAIL", errors, []⟩, state.2)

/-- `test_media_video_link` (lines 1389–1409). -/
def test_media_video_link (resp : Resp) : TestOutcome :=
  let errors : List String := []
  let errors := _require (resp.json ≠ Json.null) "response is not JSON" errors
  let errors :=
    match resp.json with
    | Json.obj kvs => _expect_str (jGet kvs "url") "url" errors
    | _ => _expect_obj resp.json "root" errors
  ⟨if errors.isEmpty then "PASS" else "FAIL", errors, []⟩

/-- Python `==` between a JSON value and an int (a bool compares numerically,
    other types are unequal). -/
def pyEqIntVal (v : Json) (n : Int) : Bool :=
  match v with
  | Json.int m => m = n
  | Json.bool b => (if b then (1 : Int) else 0) = n
  | _ => false

/-- Does the response's JSON hold an object whose `key` maps to a list? -/
def _obj_with_list (r : Resp) (key : String) : Bool :=
  match r.json with
  | Json.obj kvs => isList (jGet kvs key)
  | _ => false

/-- Does the response's JSON hold an object whose `status` is not `None`? -/
def _status_present (r : Resp) : Bool :=
  match r.json with
  | Json.obj kvs => jGet kvs "status" ≠ Json.null
  | _ => false

/-- The created-folder search of `test_bookmarks_mutating` (lines 1442–1446). -/
def _bm_found (items : List Json) (folder_id : Int) : Bool :=
  items.any fun f =>
    match f with
    | Json.obj fk => pyEqIntVal (jGet fk "id") folder_id
    | _ => false

/-- `test_bookmarks_mutating` (lines 1412–1482): the whole bookmark lifecycle;
    removal steps run (and are checked) even after earlier errors. -/
def test_bookmarks_mutating (r_list_before r_create r_list_after r_add
    r_folder_items r_item_folders r_rm_item r_rm_folder : Resp) : TestOutcome :=
  let errors : List String := []
  let errors :=
    if !_obj_with_list r_list_before "items" then
      errors ++ ["bookmarks list: unexpected response (expected object with items[])"]
    else errors
  let folder_id : Option Int :=
    match r_create.json with
    | Json.obj kvs =>
      match jGet kvs "folder" with
      | Json.obj fk => pyGetInt (jGet fk "id")
      | _ => none
    | _ => none
  match folder_id with
  | none => ⟨"FAIL", errors ++ ["failed to create bookmark folder (no folder.id)"], []⟩
  | some fid =>
    let errors :=
      match r_list_after.json with
      | Json.obj kvs =>
        match jGet kvs "items" with
        | Json.arr items =>
          if !_bm_found items fid then
            errors ++ ["bookmarks list: created folder not found in items[]"]
          else errors
        | _ => errors ++ ["bookmarks list: unexpected response after create"]
      | _ => errors ++ ["bookmarks list: unexpected response after create"]
    let errors :=
      if !_status_present r_add then
        errors ++ ["bookmark add: unexpected response (expected object with status)"]
      else errors
    let errors :=
      if !_obj_with_list r_folder_items "items" then
        errors ++ ["bookmarks folder items: unexpected response (expected object with items[])"]
      else errors
    let errors :=
      if !_obj_with_list r_item_folders "folders" then
        errors ++ ["bookmarks get-item-folders: unexpected response (expected object with folders[])"]
      else errors
    let errors :=
      if !_status_present r_rm_item then
        errors ++ ["bookmark remove-item: unexpected response (expected object with status)"]
      else errors
    let errors :=
      if !_status_present r_rm_folder then
        errors ++ ["bookmark remove-folder: unexpected response (expected object with status)"]
      else errors
    ⟨if errors.isEmpty then "PASS" else "FAIL", errors, []⟩

/-! ### The orchestrator `_run_all` (lines 1485–1738)

The run's configuration (CLI arguments plus the environment variables the
source reads) and every HTTP response the probes would receive are explicit
inputs; directory and file writes, printing and the shared `base_url` carry no
information into the summary or the exit code and are dropped.  The result is
the pair (exit code, summary entries), a summary entry being
`(test id, status, errors)` exactly as `_print_summary`/`summary.json` record
it. -/

/-- The inputs of `_run_all` (CLI arguments and environment). -/
structure RunArgs where
  token_arg : Option String
  env_token : Option String
  file_content : Option String
  client_id : Option String
  client_secret : Option String
  include_mutating : Bool
  include_destructive : Bool
  include_api2 : Bool
  api2_device_token : Option String
  api2_upload_report : Bool

/-- Every HTTP response the probes can receive, in request order.  Function
    fields stand for families of requests (one per reference name, shortcut,
    or sort candidate). -/
structure Responses where
  oauth_code : Resp
  oauth_poll : Resp
  user : Resp
  references : String → Resp
  tv : Resp
  types : Resp
  genres : Resp
  countries : Resp
  subtitles : Resp
  items : Resp
  items_filters : Resp
  item_details : Resp
  search : Resp
  similar : Resp
  shortcut : String → Bool → Resp
  trailer : Resp
  comments : Resp
  vote : Resp
  media_links : Resp
  media_video_link : Resp
  collections : Resp
  collections_sort_try : String → Resp
  collections_sort_ok : String → Resp
  collections_view : Resp
  bm_list_before : Resp
  bm_create : Resp
  bm_list_after : Resp
  bm_add : Resp
  bm_folder_items : Resp
  bm_item_folders : Resp
  bm_remove_item : Resp
  bm_remove_folder : Resp
  watching_info : Resp
  watching_movies : Resp
  watching_serials : Resp
  watching_marktime : Resp
  watching_toggle : Resp
  watchlist_toggle1 : Resp
  watchlist_toggle2 : Resp
  serial_items : Resp
  serial_details : Resp
  history : Resp
  history_clear_media : Resp
  history_clear_season : Resp
  history_clear_item : Resp
  device_list : Resp
  device_info : Resp
  device_get : Resp
  device_settings : Resp
  device_notify : Resp
  device_settings_get : Resp
  device_settings_upd : Resp
  api2_search : Resp
  api2_item : Resp
  api2_collections : Resp
  api2_backdrop : Resp
  api2_imdb : Resp
  api2_notif_add : Resp
  api2_notif_check : Resp
  api2_notif_del : Resp
  api2_upload : Resp

/-- A placeholder response: HTTP 200 with a body that is not JSON. -/
def nullResp : Resp := ⟨200, Json.null⟩

/-- A run in which every exchange returns `nullResp` (concrete instantiations
    start from this and override the fields they care about). -/
def defaultResponses : Responses where
  oauth_code := nullResp
  oauth_poll := nullResp
  user := nullResp
  references := fun _ => nullResp
  tv := nullResp
  types := nullResp
  genres := nullResp
  countries := nullResp
  subtitles := nullResp
  items := nullResp
  items_filters := nullResp
  item_details := nullResp
  search := nullResp
  similar := nullResp
  shortcut := fun _ _ => nullResp
  trailer := nullResp
  comments := nullResp
  vote := nullResp
  media_links := nullResp
  media_video_link := nullResp
  collections := nullResp
  collections_sort_try := fun _ => nullResp
  collections_sort_ok := fun _ => nullResp
  collections_view := nullResp
  bm_list_before := nullResp
  bm_create := nullResp
  bm_list_after := nullResp
  bm_add := nullResp
  bm_folder_items := nullResp
  bm_item_folders := nullResp
  bm_remove_item := nullResp
  bm_remove_folder := nullResp
  watching_info := nullResp
  watching_movies := nullResp
  watching_serials := nullResp
  watching_marktime := nullResp
  watching_toggle := nullResp
  watchlist_toggle1 := nullResp
  watchlist_toggle2 := nullResp
  serial_items := nullResp
  serial_details := nullResp
  history := nullResp
  history_clear_media := nullResp
  history_clear_season := nullResp
  history_clear_item := nullResp
  device_list := nullResp
  device_info := nullResp
  device_get := nullResp
  device_settings := nullResp
  device_notify := nullResp
  device_settings_get := nullResp
  device_settings_upd := nullResp
  api2_search := nullResp
  api2_item := nullResp
  api2_collections := nullResp
  api2_backdrop := nullResp
  api2_imdb := nullResp
  api2_notif_add := nullResp
  api2_notif_check := nullResp
  api2_notif_del := nullResp
  api2_upload := nullResp

/-- One line of the summary: test id, status, error list. -/
abbrev SummaryEntry := String × String × List String

/-- The local `add` of `_run_all` (lines 1526–1527). -/
def entry (test_id : String) (o : TestOutcome) : SummaryEntry :=
  (test_id, o.status, o.errors)

/-- The mutating-disabled SKIP outcome used at every mutating gate. -/
def skip_mutating : TestOutcome :=
  ⟨"SKIP", ["mutating tests disabled (enable with --include-mutating)"], []⟩

/-- `_run_all` (lines 1485–1738): exit code and summary entries.  `parse` is
    the standard library's `json.loads`, reaching this function only through
    `_read_token_file`. -/
def _run_all (args : RunArgs) (parse : String → Option Json) (rs : Responses) :
    Int × List SummaryEntry :=
  let token := (_resolve_access_token args.token_arg args.env_token
    (_read_token_file parse args.file_content)).1
  if !pyTruthyStrOpt token then (2, [])
  else
    let auth_entry :=
      if pyTruthyStrOpt args.client_id && pyTruthyStrOpt args.client_secret then
        entry "test-auth-oauth2-device-flow" (test_oauth_device_flow_pending rs.oauth_code rs.oauth_poll)
      else
        entry "test-auth-oauth2-device-flow" ⟨"SKIP", ["client_id/client_secret not available"], []⟩
    let genre_id := (test_genres rs.genres).2
    let o_items := (test_items_listing rs.items).1
    let results1 : List SummaryEntry :=
      [auth_entry,
       entry "test-user" (test_user rs.user),
       entry "test-references" (test_references rs.references),
       entry "test-tv" (test_tv rs.tv),
       entry "test-content-types" (test_types rs.types).1,
       entry "test-content-genres" (test_genres rs.genres).1,
       entry "test-content-countries" (test_countries rs.countries),
       entry "test-content-subtitles" (test_subtitles rs.subtitles),
       entry "test-content-items" o_items,
       entry "test-content-items-filters" (test_items_listing_filters rs.items_filters)]
    match (test_items_listing rs.items).2 with
    | none => (1, results1)
    | some item_id =>
      let media_id := (test_item_details rs.item_details).2
      let shortcut_entries : List SummaryEntry :=
        (["fresh", "hot", "popular"]).foldl (fun acc sc =>
          acc ++ [entry ("test-content-" ++ sc) (test_shortcut (rs.shortcut sc false))] ++
            (if genre_id.isSome then
              [entry ("test-content-" ++ sc ++ "-genre") (test_shortcut (rs.shortcut sc true))]
             else
              [entry ("test-content-" ++ sc ++ "-genre")
                ⟨"SKIP", ["could not pick genre_id from /v1/genres"], []⟩])) []
      let vote_entry :=
        if args.include_mutating then
          entry "test-content-vote-mutating" (test_vote_mutating rs.vote)
        else entry "test-content-vote-mutating" skip_mutating
      let media_entries : List SummaryEntry :=
        if media_id.isSome then
          [entry "test-content-media-links" (test_media_links rs.media_links).1] ++
            (if (test_media_links rs.media_links).2.isSome then
              [entry "test-content-media-video-link" (test_media_video_link rs.media_video_link)]
             else [])
        else []
      let col_id := (test_collections rs.collections).2
      let col_entries : List SummaryEntry :=
        [entry "test-collections" (test_collections rs.collections).1,
         entry "test-collections-sort"
           (test_collections_sort rs.collections_sort_try rs.collections_sort_ok)] ++
          (if col_id.isSome then
            [entry "test-collections-view" (test_collection_items rs.collections_view)]
           else [])
      let bm_entry :=
        if args.include_mutating then
          entry "test-bookmarks-mutating"
            (test_bookmarks_mutating rs.bm_list_before rs.bm_create rs.bm_list_after rs.bm_add
              rs.bm_folder_items rs.bm_item_folders rs.bm_remove_item rs.bm_remove_folder)
        else entry "test-bookmarks-mutating" skip_mutating
      let watching_entry :=
        entry "test-watching" (test_watching rs.watching_info rs.watching_movies rs.watching_serials).1
      let watching_mut_entry :=
        if args.include_mutating then
          if media_id.isSome then
            entry "test-watching-mutating" (test_watching_mutating rs.watching_marktime rs.watching_toggle)
          else
            entry "test-watching-mutating"
              ⟨"SKIP", ["no media_id available for watching mutation tests"], []⟩
        else entry "test-watching-mutating" skip_mutating
      let serial_item_id : Option Int :=
        if args.include_mutating || args.include_destructive then
          _pick_first_item_id rs.serial_items.json
        else none
      let watchlist_entry :=
        if args.include_mutating then
          if serial_item_id.isSome then
            entry "test-watchlist-toggle-mutating"
              (test_watchlist_toggle_mutating rs.watchlist_toggle1 rs.watchlist_toggle2)
          else
            entry "test-watchlist-toggle-mutating"
              ⟨"SKIP", ["could not pick serial item id from /v1/items?type=serial"], []⟩
        else entry "test-watchlist-toggle-mutating" skip_mutating
      let season_id : Option Int :=
        if args.include_destructive && serial_item_id.isSome then
          match rs.serial_details.json with
          | Json.obj kvs => _pick_season_id_from_item (jGet kvs "item")
          | _ => none
        else none
      let picked := (test_history rs.history).2
      let hist_mut_entry :=
        if args.include_destructive then
          entry "test-history-mutating"
            (test_history_mutating picked.1 season_id (some (pyOrInt picked.2 item_id))
              rs.history_clear_media rs.history_clear_season rs.history_clear_item)
        else
          entry "test-history-mutating"
            ⟨"SKIP", ["destructive tests disabled (enable with --include-destructive)"], []⟩
      let dev_id := (test_device rs.device_list rs.device_info rs.device_get rs.device_settings).2
      let dev_mut_entry :=
        if args.include_mutating then
          if dev_id.isSome then
            entry "test-device-mutating"
              (test_device_mutating rs.device_notify rs.device_settings_get rs.device_settings_upd)
          else entry "test-device-mutating" ⟨"SKIP", ["no device_id available"], []⟩
        else entry "test-device-mutating" skip_mutating
      let api2_entries : List SummaryEntry :=
        if args.include_api2 then
          let api2_item_outcome := test_api2_item_details rs.api2_item
          [entry "test-api2-items-search" (test_api2_items_search rs.api2_search).1,
           entry "test-api2-item-details" api2_item_outcome,
           entry "test-api2-item-collections" (test_api2_item_collections rs.api2_collections)] ++
          (if (pyGetInt (jGet api2_item_outcome.context_updates "imdb_id")).isSome
              && (pyGetInt (jGet api2_item_outcome.context_updates "kinopoisk_id")).isSome then
             [entry "test-api2-backdrop" (test_api2_backdrop rs.api2_backdrop),
              entry "test-api2-imdb" (test_api2_imdb rs.api2_imdb)]
           else
             [entry "test-api2-backdrop"
                ⟨"SKIP", ["api2 backdrop skipped: could not extract imdb_id/kinopoisk_id"], []⟩,
              entry "test-api2-imdb"
                ⟨"SKIP", ["api2 imdb skipped: could not extract imdb_id"], []⟩]) ++
          (if pyTruthyStrOpt args.api2_device_token then
             if args.include_mutating then
               [entry "test-api2-notifications-mutating"
                  (test_api2_notifications_mutating rs.api2_notif_add rs.api2_notif_check rs.api2_notif_del)]
             else [entry "test-api2-notifications-mutating" skip_mutating]
           else
             [entry "test-api2-notifications-mutating"
                ⟨"SKIP", ["api2 notifications skipped: provide --api2-device-token"], []⟩]) ++
          (if args.api2_upload_report && args.include_mutating then
             [entry "test-api2-upload-report" (test_api2_upload_report rs.api2_upload)]
           else if args.api2_upload_report && !args.include_mutating then
             [entry "test-api2-upload-report" skip_mutating]
           else
             [entry "test-api2-upload-report"
                ⟨"SKIP", ["api2 upload_report skipped (enable with --api2-upload-report)"], []⟩])
        else
          [entry "test-api2" ⟨"SKIP", ["api2 tests not enabled (use --include-api2)"], []⟩]
      let results : List SummaryEntry :=
        results1 ++
        [entry "test-content-item-details" (test_item_details rs.item_details).1,
         entry "test-content-search" (test_search rs.search),
         entry "test-content-similar" (test_similar rs.similar)] ++
        shortcut_entries ++
        [entry "test-content-trailer" (test_trailer rs.trailer),
         entry "test-content-comments" (test_comments rs.comments),
         vote_entry] ++
        media_entries ++ col_entries ++
        [bm_entry, watching_entry, watching_mut_entry, watchlist_entry] ++
        [entry "test-history" (test_history rs.history).1, hist_mut_entry] ++
        [entry "test-device" (test_device rs.device_list rs.device_info rs.device_get rs.device_settings).1,
         dev_mut_entry] ++
        api2_entries
      ((if results.all (fun e => e.2.1 != "FAIL") then 0 else 1), results)

/-- The test-id inventory of a finished run. -/
def runIds (r : Int × List SummaryEntry) : List String :=
  r.2.map (fun e => e.1)

/-! ## Theorems -/

/-! ### Redaction (claims C1 and C6) -/

mutual
theorem redactSpecRel_redact : ∀ j, redactSpecRel j (_redact_json j) = true
  | .null => rfl
  | .bool _ => by simp [_redact_json, redactSpecRel, Json.beq]
  | .int _ => by simp [_redact_json, redactSpecRel, Json.beq]
  | .str _ => by simp [_redact_json, redactSpecRel, Json.beq]
  | .arr xs => by simp [_redact_json, redactSpecRel, redactSpecRelArr_redact xs]
  | .obj kvs => by simp [_redact_json, redactSpecRel, redactSpecRelMembers_redact kvs]

theorem redactSpecRelArr_redact : ∀ xs, redactSpecRelArr xs (redactArr xs) = true
  | [] => rfl
  | x :: rest => by
    simp [redactArr, redactSpecRelArr, redactSpecRel_redact x, redactSpecRelArr_redact rest]

theorem redactSpecRelMembers_redact : ∀ kvs, redactSpecRelMembers kvs (redactMembers kvs) = true
  | [] => rfl
  | (k, v) :: rest => by
    by_cases h : pyLower k ∈ _SENSITIVE_JSON_KEYS
    · simp [redactMembers, redactSpecRelMembers, h, Json.beq, redactSpecRelMembers_redact rest]
    · simp [redactMembers, redactSpecRelMembers, h, redactSpecRel_redact v,
        redactSpecRelMembers_redact rest]
end

mutual
theorem redact_idem : ∀ j, _redact_json (_redact_json j) = _redact_json j
  | .null => rfl
  | .bool _ => rfl
  | .int _ => rfl
  | .str _ => rfl
  | .arr xs => by simp [_redact_json, redactArr_idem xs]
  | .obj kvs => by simp [_redact_json, redactMembers_idem kvs]

theorem redactArr_idem : ∀ xs, redactArr (redactArr xs) = redactArr xs
  | [] => rfl
  | x :: rest => by simp [redactArr, redact_idem x, redactArr_idem rest]

theorem redactMembers_idem : ∀ kvs, redactMembers (redactMembers kvs) = redactMembers kvs
  | [] => rfl
  | (k, v) :: rest => by
    by_cases h : pyLower k ∈ _SENSITIVE_JSON_KEYS
    · simp [redactMembers, h, redactMembers_idem rest]
    · simp [redactMembers, h, redact_idem v, redactMembers_idem rest]
end

/-- C1 (counterexample).  The claim states that redaction "replaces only
    scalar values (a non-scalar value keeps its shape)".  On the concrete
    document `{"code": [1, 2]}` the code replaces the array — a non-scalar —
    with the scalar marker string, so the value neither keeps its shape nor
    its array length. -/
theorem c1_counterexample_nonscalar_replaced :
    _redact_json (Json.obj [("code", Json.arr [Json.int 1, Json.int 2])])
      = Json.obj [("code", Json.str "<REDACTED>")] ∧
    valueIsScalar (Json.arr [Json.int 1, Json.int 2]) = false ∧
    valueIsScalar (Json.str "<REDACTED>") = true :=
  ⟨rfl, rfl, rfl⟩

/-- C1 (amended).  For every JSON document, redaction replaces every
    sensitive key's value (matched case-insensitively, at any nesting depth,
    and whether the value is scalar or not) with the redaction marker, keeps
    every other key in place with its value redacted recursively, keeps every
    array at the same length pointwise, and leaves scalars unchanged; being a
    total function of the document, it never throws.  (`redactSpecRel` is the
    spec-side statement of exactly that shape relation.) -/
theorem c1_redaction_amended (j : Json) : redactSpecRel j (_redact_json j) = true :=
  redactSpecRel_redact j

/-- C6.  Redaction is idempotent: redacting an already-redacted document
    yields the same document, for every JSON value. -/
theorem c6_redaction_idempotent (j : Json) :
    _redact_json (_redact_json j) = _redact_json j :=
  redact_idem j

/-! ### The items-listing probe on the specified concrete response (claim C8) -/

/-- The exact listing response of the claim. -/
def c8_listing_response : Json :=
  Json.obj
    [("items", Json.arr [Json.obj [("id", Json.int 42), ("title", Json.str "X"),
        ("type", Json.str "movie")]]),
     ("pagination", Json.obj [("total", Json.int 1), ("current", Json.int 1),
        ("perpage", Json.int 5)])]

/-- C8.  On the listing response
    `{"items": [{"id": 42, "title": "X", "type": "movie"}],
      "pagination": {"total": 1, "current": 1, "perpage": 5}}`
    the items-listing probe extracts item id 42 for downstream use and records
    zero shape-validation errors: the outcome is PASS with an empty error
    list. -/
theorem c8_items_listing_extracts_42 :
    test_items_listing ⟨200, c8_listing_response⟩
      = (⟨"PASS", [], []⟩, some 42) := by
  decide

/-! ### Device-flow polling (claims C4 and C7) -/

/-- On an OAuth-error payload, the poll decision is the four-way branch on the
    error string (the shared shape of the C4/C7 proofs). -/
theorem poll_step_on_error (kvs : List (String × Json)) (rstatus : Int) (rraw : String)
    (interval : Int) (s : String)
    (herr : jGet kvs "error" = Json.str s)
    (hnotok : isStr (jGet kvs "access_token") = false) :
    _device_flow_poll (Json.obj kvs) rstatus rraw interval =
      (if s = "authorization_pending" then PollStep.waiting interval
       else if s = "slow_down" then PollStep.waiting (interval + 5)
       else if s = "expired_token" ∨ s = "access_denied" then
         PollStep.fatal ("device_token: " ++ s)
       else PollStep.fatal ("device_token: unexpected OAuth error: " ++ jsonErrText kvs)) := by
  simp [_device_flow_poll, herr, hnotok]

/-- C4.  For a poll response that is a JSON object with a string `error` field
    and no `access_token`: `authorization_pending` continues polling at the
    current interval without raising; `slow_down` continues polling;
    `expired_token` and `access_denied` raise a fatal error on that call; every
    other error value also raises a fatal error; and `authorization_pending`
    and `slow_down` are the only errors that continue polling. -/
theorem c4_poll_error_handling (kvs : List (String × Json)) (rstatus : Int) (rraw : String)
    (interval : Int) (s : String)
    (herr : jGet kvs "error" = Json.str s)
    (hnotok : jGet kvs "access_token" = Json.null) :
    (s = "authorization_pending" →
      _device_flow_poll (Json.obj kvs) rstatus rraw interval = PollStep.waiting interval)
    ∧ (s = "slow_down" →
      _device_flow_poll (Json.obj kvs) rstatus rraw interval = PollStep.waiting (interval + 5))
    ∧ (s = "expired_token" ∨ s = "access_denied" →
      _device_flow_poll (Json.obj kvs) rstatus rraw interval
        = PollStep.fatal ("device_token: " ++ s))
    ∧ (s ≠ "authorization_pending" → s ≠ "slow_down" →
      ∃ msg, _device_flow_poll (Json.obj kvs) rstatus rraw interval = PollStep.fatal msg)
    ∧ (∀ i, _device_flow_poll (Json.obj kvs) rstatus rraw interval = PollStep.waiting i →
      s = "authorization_pending" ∨ s = "slow_down") := by
  have hstr : isStr (jGet kvs "access_token") = false := by rw [hnotok]; rfl
  have hstep := poll_step_on_error kvs rstatus rraw interval s herr hstr
  refine ⟨?_, ?_, ?_, ?_, ?_⟩
  · intro h; rw [hstep]; simp [h]
  · intro h; rw [hstep]; simp [h]
  · rintro (h | h) <;> rw [hstep] <;> simp [h]
  · intro h1 h2
    rw [hstep]
    simp only [h1, h2, if_false]
    split
    · exact ⟨_, rfl⟩
    · exact ⟨_, rfl⟩
  · intro i h
    rw [hstep] at h
    by_cases h1 : s = "authorization_pending"
    · exact Or.inl h1
    by_cases h2 : s = "slow_down"
    · exact Or.inr h2
    simp only [h1, h2, if_false] at h
    split at h <;> exact absurd h (by simp)

/-- C4 (witness): the theorem applied to the four concrete error payloads. -/
theorem c4_poll_error_handling_witness :
    _device_flow_poll (Json.obj [("error", Json.str "authorization_pending")]) 400 "" 5
      = PollStep.waiting 5
    ∧ _device_flow_poll (Json.obj [("error", Json.str "slow_down")]) 400 "" 5
      = PollStep.waiting 10
    ∧ _device_flow_poll (Json.obj [("error", Json.str "expired_token")]) 400 "" 5
      = PollStep.fatal "device_token: expired_token"
    ∧ (∃ msg, _device_flow_poll (Json.obj [("error", Json.str "server_error")]) 400 "" 5
        = PollStep.fatal msg) :=
  ⟨(c4_poll_error_handling [("error", Json.str "authorization_pending")] 400 "" 5
      "authorization_pending" rfl rfl).1 rfl,
   (c4_poll_error_handling [("error", Json.str "slow_down")] 400 "" 5
      "slow_down" rfl rfl).2.1 rfl,
   (c4_poll_error_handling [("error", Json.str "expired_token")] 400 "" 5
      "expired_token" rfl rfl).2.2.1 (Or.inl rfl),
   (c4_poll_error_handling [("error", Json.str "server_error")] 400 "" 5
      "server_error" rfl rfl).2.2.2.1 (by decide) (by decide)⟩

/-- C7.  In the polling loop, a `slow_down` error makes the next sleep
    interval exactly the previous interval plus 5 seconds, and no other
    response kind changes the interval: whenever a poll response leads to
    another sleep, either the error was `slow_down` and the interval grew by
    exactly 5, or the error was `authorization_pending` and the interval is
    unchanged. -/
theorem c7_slow_down_backoff (rjson : Json) (rstatus : Int) (rraw : String) (interval : Int) :
    (∀ kvs, rjson = Json.obj kvs → jGet kvs "error" = Json.str "slow_down" →
      isStr (jGet kvs "access_token") = false →
      _device_flow_poll rjson rstatus rraw interval = PollStep.waiting (interval + 5))
    ∧ (∀ i, _device_flow_poll rjson rstatus rraw interval = PollStep.waiting i →
      (i = interval + 5 ∧ ∃ kvs, rjson = Json.obj kvs
        ∧ jGet kvs "error" = Json.str "slow_down")
      ∨ (i = interval ∧ ∃ kvs, rjson = Json.obj kvs
        ∧ jGet kvs "error" = Json.str "authorization_pending")) := by
  constructor
  · intro kvs hj herr hnotok
    subst hj
    rw [poll_step_on_error kvs rstatus rraw interval "slow_down" herr hnotok]
    simp
  · intro i h
    match hj : rjson with
    | Json.null | Json.bool _ | Json.int _ | Json.str _ | Json.arr _ =>
      exact absurd h (by simp [_device_flow_poll])
    | Json.obj kvs =>
      by_cases hstr : isStr (jGet kvs "access_token") = true
      · exact absurd h (by simp [_device_flow_poll, hstr])
      · have hstr2 : isStr (jGet kvs "access_token") = false := by
          simpa using hstr
        match herr : jGet kvs "error" with
        | Json.null | Json.bool _ | Json.int _ | Json.arr _ | Json.obj _ =>
          exact absurd h (by simp [_device_flow_poll, hstr2, herr])
        | Json.str s =>
          rw [poll_step_on_error kvs rstatus rraw interval s herr hstr2] at h
          by_cases h1 : s = "authorization_pending"
          · subst h1
            simp only [if_pos rfl] at h
            cases h
            exact Or.inr ⟨rfl, kvs, rfl, herr⟩
          by_cases h2 : s = "slow_down"
          · subst h2
            simp only [h1, if_false, if_pos rfl] at h
            cases h
            exact Or.inl ⟨rfl, kvs, rfl, herr⟩
          simp only [h1, h2, if_false] at h
          split at h <;> exact absurd h (by simp)

/-- C7 (witness): the theorem applied to a concrete `slow_down` response and
    the concrete continuing step it produces. -/
theorem c7_slow_down_backoff_witness :
    _device_flow_poll (Json.obj [("error", Json.str "slow_down")]) 400 "" 7
      = PollStep.waiting 12
    ∧ ((12 : Int) = 7 + 5 ∧ ∃ kvs,
        Json.obj [("error", Json.str "slow_down")] = Json.obj kvs
          ∧ jGet kvs "error" = Json.str "slow_down") :=
  ⟨(c7_slow_down_backoff (Json.obj [("error", Json.str "slow_down")]) 400 "" 7).1
      [("error", Json.str "slow_down")] rfl rfl rfl,
   ((c7_slow_down_backoff (Json.obj [("error", Json.str "slow_down")]) 400 "" 7).2
      12 (by decide)).resolve_right (fun hr => absurd hr.1 (by decide))⟩

/-! ### Token-file reading and token resolution (claims C3 and C10) -/

theorem firstTokenLine_ne_empty : ∀ ls t, firstTokenLine ls = some t → t ≠ "" := by
  intro ls
  induction ls with
  | nil => intro t h; exact absurd h (by simp [firstTokenLine])
  | cons l rest ih =>
    intro t h
    by_cases hc : pyStrip l = "" || pyStartsWith (pyStrip l) "#"
    · exact ih t (by simpa [firstTokenLine, hc] using h)
    · have : some (pyStrip l) = some t := by simpa [firstTokenLine, hc] using h
      have hl : pyStrip l ≠ "" := by
        intro he
        simp [he, pyStartsWith, listStarts] at hc
      cases this
      exact hl

theorem token_from_json_obj_ne_empty (kvs : List (String × Json)) (t : String)
    (h : _token_from_json_obj kvs = some t) : t ≠ "" := by
  unfold _token_from_json_obj at h
  split at h
  · split at h
    · cases h
      assumption
    · exact absurd h (by simp)
  · exact absurd h (by simp)

/-- Whatever `_read_token_file` returns is a non-empty string (both branches
    strip and reject blanks), so the `if file_tok:` truthiness test in
    `_resolve_access_token` accepts every token the file yields. -/
theorem read_token_file_ne_empty (parse : String → Option Json) (raw : Option String)
    (t : String) (h : _read_token_file parse raw = some t) : t ≠ "" := by
  cases raw with
  | none => exact absurd h (by simp [_read_token_file])
  | some s =>
    simp only [_read_token_file] at h
    split at h
    · exact absurd h (by simp)
    · split at h
      · next heq =>
        cases h
        split at heq
        · split at heq
          · exact token_from_json_obj_ne_empty _ _ heq
          · exact absurd heq (by simp)
        · exact absurd heq (by simp)
      · exact firstTokenLine_ne_empty _ _ h

/-- C3.  Token resolution observes the precedence explicit argument >
    environment variable > token file: a non-blank explicit argument wins and
    is tagged "arg"; otherwise a non-blank environment variable wins, tagged
    "env"; otherwise a token read from the file is returned tagged "file";
    with all three absent, resolution returns no token (tagged "missing") and
    `_run_all` exits with code 2. -/
theorem c3_token_resolution_precedence (arg env raw : Option String)
    (parse : String → Option Json) :
    (pyNonBlank arg = true →
      _resolve_access_token arg env (_read_token_file parse raw) = (arg.map pyStrip, "arg"))
    ∧ (pyNonBlank arg = false → pyNonBlank env = true →
      _resolve_access_token arg env (_read_token_file parse raw) = (env.map pyStrip, "env"))
    ∧ (∀ t, pyNonBlank arg = false → pyNonBlank env = false →
      _read_token_file parse raw = some t →
      _resolve_access_token arg env (_read_token_file parse raw) = (some t, "file"))
    ∧ (pyNonBlank arg = false → pyNonBlank env = false →
      _read_token_file parse raw = none →
      _resolve_access_token arg env (_read_token_file parse raw) = (none, "missing")
      ∧ ∀ (args : RunArgs) (rs : Responses),
          args.token_arg = arg → args.env_token = env → args.file_content = raw →
          (_run_all args parse rs).1 = 2) := by
  refine ⟨?_, ?_, ?_, ?_⟩
  · intro h
    simp [_resolve_access_token, h]
  · intro h1 h2
    simp [_resolve_access_token, h1, h2]
  · intro t h1 h2 hf
    have ht := read_token_file_ne_empty parse raw t hf
    simp [_resolve_access_token, h1, h2, hf, ht]
  · intro h1 h2 hf
    have hres : _resolve_access_token arg env (_read_token_file parse raw) = (none, "missing") := by
      simp [_resolve_access_token, h1, h2, hf]
    refine ⟨hres, ?_⟩
    intro args rs ha he hc
    unfold _run_all
    rw [ha, he, hc, hres]
    rfl

/-- C3 (witness): all four precedence scenarios at concrete inputs
    ("A" over "B" over a file holding "C"; then each source removed in turn). -/
theorem c3_token_resolution_witness :
    _resolve_access_token (some " A ") (some "B")
      (_read_token_file (fun _ => none) (some "C\n")) = (some "A", "arg")
    ∧ _resolve_access_token none (some "B")
      (_read_token_file (fun _ => none) (some "C\n")) = (some "B", "env")
    ∧ _resolve_access_token none none
      (_read_token_file (fun _ => none) (some "C\n")) = (some "C", "file")
    ∧ _resolve_access_token none none
      (_read_token_file (fun _ => none) none) = (none, "missing")
    ∧ (_run_all ⟨none, none, none, none, none, false, false, false, none, false⟩
        (fun _ => none) defaultResponses).1 = 2 :=
  ⟨(c3_token_resolution_precedence (some " A ") (some "B") (some "C\n") (fun _ => none)).1
      (by decide),
   (c3_token_resolution_precedence none (some "B") (some "C\n") (fun _ => none)).2.1
      (by decide) (by decide),
   (c3_token_resolution_precedence none none (some "C\n") (fun _ => none)).2.2.1
      "C" (by decide) (by decide) (by decide),
   ((c3_token_resolution_precedence none none none (fun _ => none)).2.2.2
      (by decide) (by decide) rfl).1,
   ((c3_token_resolution_precedence none none none (fun _ => none)).2.2.2
      (by decide) (by decide) rfl).2
     ⟨none, none, none, none, none, false, false, false, none, false⟩
     defaultResponses rfl rfl rfl⟩

/-- C10.  Reading the token file never fails: content that starts with `{` but
    is not parseable JSON, or parses to a JSON object without a non-blank
    string `access_token`/`token` field, falls through to plain-text parsing
    and yields the first non-blank, non-`#`-prefixed line of the (stripped)
    raw text; an unreadable file or a blank file yields no token rather than
    an exception. -/
theorem c10_token_file_fallthrough (parse : String → Option Json) (r : String) :
    (pyStrip r ≠ "" → pyStartsWith (pyLStrip (pyStrip r)) "\x7b" = true →
      parse (pyStrip r) = none →
      _read_token_file parse (some r) = firstTokenLine (pySplitlines (pyStrip r)))
    ∧ (∀ kvs, pyStrip r ≠ "" → pyStartsWith (pyLStrip (pyStrip r)) "\x7b" = true →
      parse (pyStrip r) = some (Json.obj kvs) → _token_from_json_obj kvs = none →
      _read_token_file parse (some r) = firstTokenLine (pySplitlines (pyStrip r)))
    ∧ _read_token_file parse none = none
    ∧ (pyStrip r = "" → _read_token_file parse (some r) = none) := by
  refine ⟨?_, ?_, rfl, ?_⟩
  · intro h1 h2 h3
    simp [_read_token_file, h1, h2, h3]
  · intro kvs h1 h2 h3 h4
    simp [_read_token_file, h1, h2, h3, h4]
  · intro h
    simp [_read_token_file, h]

/-- C10 (witness): the theorem applied to the pretty-printed object
    `"{\n1\n}"`, once with a failing parser and once with a parser returning
    an object that has no token field; in both cases the result is the
    object's first line `"\x7b"`.  The unreadable-file and blank-file scenarios
    are instantiated at `none` and `"  "`. -/
theorem c10_token_file_fallthrough_witness :
    _read_token_file (fun _ => none) (some "\x7b\n1\n\x7d")
      = firstTokenLine (pySplitlines (pyStrip "\x7b\n1\n\x7d"))
    ∧ _read_token_file (fun _ => some (Json.obj [("a", Json.int 1)])) (some "\x7b\n1\n\x7d")
      = firstTokenLine (pySplitlines (pyStrip "\x7b\n1\n\x7d"))
    ∧ firstTokenLine (pySplitlines (pyStrip "\x7b\n1\n\x7d")) = some "\x7b"
    ∧ _read_token_file (fun _ => none) none = none
    ∧ _read_token_file (fun _ => none) (some "  ") = none :=
  ⟨(c10_token_file_fallthrough (fun _ => none) "\x7b\n1\n\x7d").1
      (by decide) (by decide) rfl,
   (c10_token_file_fallthrough (fun _ => some (Json.obj [("a", Json.int 1)]))
      "\x7b\n1\n\x7d").2.1 [("a", Json.int 1)] (by decide) (by decide) rfl (by decide),
   by decide,
   (c10_token_file_fallthrough (fun _ => none) "\x7b\n1\n\x7d").2.2.1,
   (c10_token_file_fallthrough (fun _ => none) "  ").2.2.2 (by decide)⟩

/-! ### Exit code (claim C2) -/

/-- When no item id could be picked from the items listing, the listing test's
    outcome is FAIL (line 1239 appended an error). -/
theorem items_listing_none_fail (r : Resp) (h : (test_items_listing r).2 = none) :
    (test_items_listing r).1.status = "FAIL" := by
  simp only [test_items_listing] at h ⊢
  simp [h]

/-- `0 if all(s != "FAIL" ...) else 1` said with `any`: the run's exit code is
    1 exactly when some entry's status is FAIL, else 0. -/
theorem exit_all_any (l : List SummaryEntry) :
    (if l.all (fun e => e.2.1 != "FAIL") then (0 : Int) else 1)
      = if l.any (fun e => e.2.1 == "FAIL") then 1 else 0 := by
  induction l with
  | nil => rfl
  | cons e rest ih =>
    simp only [bne] at ih ⊢
    cases h : (e.2.1 == "FAIL") with
    | true => simp [List.all_cons, List.any_cons, h]
    | false =>
      simp only [List.all_cons, List.any_cons, h, Bool.not_false, Bool.true_and, Bool.false_or]
      exact ih

/-- C2.  For every completed run (the token gate passed), the exit status of
    `_run_all` is 1 if and only if at least one recorded outcome has status
    FAIL, and 0 otherwise — SKIP entries never make it non-zero.  This covers
    every path, including the early return taken when no item id could be
    extracted: there the items-listing outcome itself is FAIL, so the
    returned 1 agrees with the rule. -/
theorem c2_exit_code_iff_some_fail (args : RunArgs) (parse : String → Option Json)
    (rs : Responses)
    (htok : pyTruthyStrOpt (_resolve_access_token args.token_arg args.env_token
      (_read_token_file parse args.file_content)).1 = true) :
    (_run_all args parse rs).1
      = if (_run_all args parse rs).2.any (fun e => e.2.1 == "FAIL") then 1 else 0 := by
  simp only [_run_all, htok, Bool.not_true, Bool.false_eq_true, if_false]
  cases hitem : (test_items_listing rs.items).2 with
  | none =>
    have hf := items_listing_none_fail rs.items hitem
    simp [entry, List.any_cons, hf]
  | some i =>
    simp only []
    exact exit_all_any _

/-- C2 (witness): a concrete run (explicit token, every response a non-JSON
    200) satisfying the token-gate hypothesis. -/
theorem c2_exit_code_witness :
    pyTruthyStrOpt (_resolve_access_token
      (RunArgs.mk (some "T") none none none none false false false none false).token_arg
      (RunArgs.mk (some "T") none none none none false false false none false).env_token
      (_read_token_file (fun _ => none)
        (RunArgs.mk (some "T") none none none none false false false none false).file_content)).1
      = true
    ∧ (_run_all (RunArgs.mk (some "T") none none none none false false false none false)
        (fun _ => none) defaultResponses).1
      = if (_run_all (RunArgs.mk (some "T") none none none none false false false none false)
            (fun _ => none) defaultResponses).2.any (fun e => e.2.1 == "FAIL") then 1 else 0 :=
  ⟨by decide,
   c2_exit_code_iff_some_fail
     (RunArgs.mk (some "T") none none none none false false false none false)
     (fun _ => none) defaultResponses (by decide)⟩

/-! ### Flag gating and the test inventory (claim C5) -/

/-- The test ids gated behind `--include-mutating` outside the api2 section
    (each records the mutating-disabled SKIP when the flag is off). -/
def coreMutatingIds : List String :=
  ["test-content-vote-mutating", "test-bookmarks-mutating", "test-watching-mutating",
   "test-watchlist-toggle-mutating", "test-device-mutating"]

/-- `List.map` of the id projection distributes over a conditional segment. -/
theorem map_fst_ite (c : Prop) [Decidable c] (a b : List SummaryEntry) :
    List.map (fun (e : SummaryEntry) => e.1) (if c then a else b)
      = if c then List.map (fun (e : SummaryEntry) => e.1) a
        else List.map (fun (e : SummaryEntry) => e.1) b :=
  apply_ite _ c a b

/-- The id of a conditional entry. -/
theorem fst_ite (c : Prop) [Decidable c] (a b : SummaryEntry) :
    (if c then a else b).1 = if c then a.1 else b.1 :=
  apply_ite _ c a b

set_option maxRecDepth 4000 in
/-- The mutating and destructive flags never change the id inventory of the
    summary (they only turn outcomes into SKIPs). -/
theorem runIds_flag_independent (args : RunArgs) (parse : String → Option Json)
    (rs : Responses) (m m2 d d2 : Bool) :
    runIds (_run_all { args with include_mutating := m, include_destructive := d } parse rs)
      = runIds (_run_all { args with include_mutating := m2, include_destructive := d2 } parse rs) := by
  simp only [_run_all]
  cases htok : pyTruthyStrOpt (_resolve_access_token args.token_arg args.env_token
      (_read_token_file parse args.file_content)).1 with
  | false => simp only [htok, Bool.not_false, eq_self_iff_true, if_true]
  | true =>
    simp only [htok, Bool.not_true, Bool.false_eq_true, if_false]
    cases hitem : (test_items_listing rs.items).2 with
    | none => rfl
    | some i =>
      simp only [runIds, List.map_append, List.map_cons, List.map_nil, entry,
        map_fst_ite, fst_ite, ite_self, List.foldl_cons, List.foldl_nil,
        List.append_nil, List.nil_append]

set_option maxRecDepth 4000 in
/-- With mutating tests disabled, every core mutating test id carries a SKIP
    outcome whose error list names the disabling flag. -/
theorem mutating_disabled_skips (args : RunArgs) (parse : String → Option Json)
    (rs : Responses) (hm : args.include_mutating = false) :
    ((_run_all args parse rs).2.all fun e =>
      !(coreMutatingIds.contains e.1)
        || (e.2.1 == "SKIP"
            && e.2.2.contains "mutating tests disabled (enable with --include-mutating)")) = true := by
  simp only [_run_all, hm]
  cases htok : pyTruthyStrOpt (_resolve_access_token args.token_arg args.env_token
      (_read_token_file parse args.file_content)).1 with
  | false => rfl
  | true =>
    simp only [htok, Bool.not_true, Bool.false_eq_true, if_false]
    cases hitem : (test_items_listing rs.items).2 with
    | none =>
      simp only [List.all_cons, List.all_nil, Bool.and_eq_true]
      repeat' apply And.intro
      all_goals repeat' split
      all_goals first | rfl | trivial | simp_all only [Bool.false_eq_true, and_false]
    | some i =>
      simp only [List.all_append, List.all_cons, List.all_nil, Bool.and_eq_true,
        List.foldl_cons, List.foldl_nil, List.nil_append, List.append_assoc]
      repeat' apply And.intro
      all_goals repeat' split
      all_goals first | rfl | trivial | simp_all only [Bool.false_eq_true, and_false]

set_option maxRecDepth 4000 in
/-- With mutating tests disabled, the api2 mutating test ids (whose SKIP
    reason depends on which gate fired first) still never record PASS or
    FAIL. -/
theorem mutating_disabled_api2_skips (args : RunArgs) (parse : String → Option Json)
    (rs : Responses) (hm : args.include_mutating = false) :
    ((_run_all args parse rs).2.all fun e =>
      !(e.1 == "test-api2-notifications-mutating" || e.1 == "test-api2-upload-report")
        || e.2.1 == "SKIP") = true := by
  simp only [_run_all, hm]
  cases htok : pyTruthyStrOpt (_resolve_access_token args.token_arg args.env_token
      (_read_token_file parse args.file_content)).1 with
  | false => rfl
  | true =>
    simp only [htok, Bool.not_true, Bool.false_eq_true, if_false]
    cases hitem : (test_items_listing rs.items).2 with
    | none =>
      simp only [List.all_cons, List.all_nil, Bool.and_eq_true]
      repeat' apply And.intro
      all_goals repeat' split
      all_goals first | rfl | trivial | simp_all only [Bool.false_eq_true, and_false]
    | some i =>
      simp only [List.all_append, List.all_cons, List.all_nil, Bool.and_eq_true,
        List.foldl_cons, List.foldl_nil, List.nil_append, List.append_assoc]
      repeat' apply And.intro
      all_goals repeat' split
      all_goals first | rfl | trivial | simp_all only [Bool.false_eq_true, and_false]

set_option maxRecDepth 4000 in
/-- With destructive tests disabled, the history-clearing test records a SKIP
    outcome naming the disabling flag. -/
theorem destructive_disabled_skips (args : RunArgs) (parse : String → Option Json)
    (rs : Responses) (hd : args.include_destructive = false) :
    ((_run_all args parse rs).2.all fun e =>
      !(e.1 == "test-history-mutating")
        || (e.2.1 == "SKIP"
            && e.2.2.contains "destructive tests disabled (enable with --include-destructive)")) = true := by
  simp only [_run_all, hd]
  cases htok : pyTruthyStrOpt (_resolve_access_token args.token_arg args.env_token
      (_read_token_file parse args.file_content)).1 with
  | false => rfl
  | true =>
    simp only [htok, Bool.not_true, Bool.false_eq_true, if_false]
    cases hitem : (test_items_listing rs.items).2 with
    | none =>
      simp only [List.all_cons, List.all_nil, Bool.and_eq_true]
      repeat' apply And.intro
      all_goals repeat' split
      all_goals first | rfl | trivial | simp_all only [Bool.false_eq_true, and_false]
    | some i =>
      simp only [List.all_append, List.all_cons, List.all_nil, Bool.and_eq_true,
        List.foldl_cons, List.foldl_nil, List.nil_append, List.append_assoc]
      repeat' apply And.intro
      all_goals repeat' split
      all_goals first | rfl | trivial | simp_all only [Bool.false_eq_true, and_false]

/-- A run whose items listing yields item id 42 (everything else a non-JSON
    200): enough to drive `_run_all` past the early return. -/
def c5Responses : Responses :=
  { defaultResponses with items := ⟨200, c8_listing_response⟩ }

/-- C5 (counterexample).  The claim says the summary enumerates the same
    fixed inventory of test ids for every combination of the enable flags
    (mutating, destructive, api2).  Toggling only the api2 flag changes the
    inventory: enabled, the summary lists the seven `test-api2-*` ids;
    disabled, a single `test-api2` entry. -/
theorem c5_counterexample_api2_changes_inventory :
    runIds (_run_all (RunArgs.mk (some "T") none none none none false false true none false)
        (fun _ => none) c5Responses)
      ≠ runIds (_run_all (RunArgs.mk (some "T") none none none none false false false none false)
        (fun _ => none) c5Responses) := by
  decide

/-- C5 (amended).  Whenever the mutating or destructive test class is
    disabled by its flag, the corresponding tests record SKIP outcomes — the
    five core mutating test ids and the history-clearing id carry the error
    message naming the disabling flag, and the two api2 mutating ids are
    always SKIP (their message names whichever gate fired first) — and the
    summary's id inventory does not depend on the mutating and destructive
    flags.  (The api2 flag does change the inventory; see the
    counterexample.) -/
theorem c5_flag_gating_amended (args : RunArgs) (parse : String → Option Json)
    (rs : Responses) (m m2 d d2 : Bool) :
    runIds (_run_all { args with include_mutating := m, include_destructive := d } parse rs)
      = runIds (_run_all { args with include_mutating := m2, include_destructive := d2 } parse rs)
    ∧ (args.include_mutating = false →
        ((_run_all args parse rs).2.all fun e =>
          !(coreMutatingIds.contains e.1)
            || (e.2.1 == "SKIP"
                && e.2.2.contains "mutating tests disabled (enable with --include-mutating)")) = true)
    ∧ (args.include_mutating = false →
        ((_run_all args parse rs).2.all fun e =>
          !(e.1 == "test-api2-notifications-mutating" || e.1 == "test-api2-upload-report")
            || e.2.1 == "SKIP") = true)
    ∧ (args.include_destructive = false →
        ((_run_all args parse rs).2.all fun e =>
          !(e.1 == "test-history-mutating")
            || (e.2.1 == "SKIP"
                && e.2.2.contains "destructive tests disabled (enable with --include-destructive)")) = true) :=
  ⟨runIds_flag_independent args parse rs m m2 d d2,
   mutating_disabled_skips args parse rs,
   mutating_disabled_api2_skips args parse rs,
   destructive_disabled_skips args parse rs⟩

/-- C5 (witness): the amended theorem at a concrete run with both classes
    disabled, api2 enabled, and an items listing that yields id 42. -/
theorem c5_flag_gating_witness :
    runIds (_run_all { RunArgs.mk (some "T") none none none none false false true none false with
        include_mutating := true, include_destructive := true } (fun _ => none) c5Responses)
      = runIds (_run_all { RunArgs.mk (some "T") none none none none false false true none false with
        include_mutating := false, include_destructive := false } (fun _ => none) c5Responses)
    ∧ ((_run_all (RunArgs.mk (some "T") none none none none false false true none false)
        (fun _ => none) c5Responses).2.all fun e =>
          !(coreMutatingIds.contains e.1)
            || (e.2.1 == "SKIP"
                && e.2.2.contains "mutating tests disabled (enable with --include-mutating)")) = true
    ∧ ((_run_all (RunArgs.mk (some "T") none none none none false false true none false)
        (fun _ => none) c5Responses).2.all fun e =>
          !(e.1 == "test-api2-notifications-mutating" || e.1 == "test-api2-upload-report")
            || e.2.1 == "SKIP") = true
    ∧ ((_run_all (RunArgs.mk (some "T") none none none none false false true none false)
        (fun _ => none) c5Responses).2.all fun e =>
          !(e.1 == "test-history-mutating")
            || (e.2.1 == "SKIP"
                && e.2.2.contains "destructive tests disabled (enable with --include-destructive)")) = true :=
  ⟨(c5_flag_gating_amended (RunArgs.mk (some "T") none none none none false false true none false)
      (fun _ => none) c5Responses true false true false).1,
   (c5_flag_gating_amended (RunArgs.mk (some "T") none none none none false false true none false)
      (fun _ => none) c5Responses true false true false).2.1 rfl,
   (c5_flag_gating_amended (RunArgs.mk (some "T") none none none none false false true none false)
      (fun _ => none) c5Responses true false true false).2.2.1 rfl,
   (c5_flag_gating_amended (RunArgs.mk (some "T") none none none none false false true none false)
      (fun _ => none) c5Responses true false true false).2.2.2 rfl⟩

/-! ### The PASS/FAIL/error-list invariant (claim C9) -/

/-- The invariant every routine-produced outcome obeys: PASS comes with an
    empty error list, FAIL with a non-empty one (SKIP is unconstrained). -/
def outcomeInv (o : TestOutcome) : Prop :=
  (o.status = "PASS" → o.errors = []) ∧ (o.status = "FAIL" → o.errors ≠ [])

/-- The source's closing idiom `TestOutcome(status="PASS" if not errors else
    "FAIL", errors=errors, ...)` satisfies the invariant for any error list. -/
theorem inv_passfail (errs : List String) (ctx : List (String × Json)) :
    outcomeInv ⟨if errs.isEmpty then "PASS" else "FAIL", errs, ctx⟩ := by
  cases errs with
  | nil => exact ⟨fun _ => rfl, fun h => by simp at h⟩
  | cons a l => exact ⟨fun h => by simp at h, fun _ => by simp⟩

/-- An early `return TestOutcome(status="FAIL", ...)` right after an
    `errors.append(...)` satisfies the invariant. -/
theorem inv_fail_append (errs : List String) (m : String) (ctx : List (String × Json)) :
    outcomeInv ⟨"FAIL", errs ++ [m], ctx⟩ := by
  exact ⟨fun h => by simp at h, fun _ => by simp⟩

/-- A SKIP outcome satisfies the invariant whatever its (explanatory)
    error list. -/
theorem inv_skip (errs : List String) (ctx : List (String × Json)) :
    outcomeInv ⟨"SKIP", errs, ctx⟩ := by
  exact ⟨fun h => by simp at h, fun h => by simp at h⟩

theorem test_user_inv (r : Resp) : outcomeInv (test_user r) := inv_passfail _ _

theorem test_oauth_inv (r r2 : Resp) : outcomeInv (test_oauth_device_flow_pending r r2) := by
  simp only [test_oauth_device_flow_pending]
  repeat' first
    | exact inv_passfail _ _
    | exact inv_fail_append _ _ _
    | exact inv_skip _ _
    | split

theorem test_api2_items_search_inv (r : Resp) : outcomeInv (test_api2_items_search r).1 :=
  inv_passfail _ _

theorem test_api2_item_details_inv (r : Resp) : outcomeInv (test_api2_item_details r) :=
  inv_passfail _ _

theorem test_api2_backdrop_inv (r : Resp) : outcomeInv (test_api2_backdrop r) := by
  simp only [test_api2_backdrop]
  split
  · exact inv_skip _ _
  · exact inv_passfail _ _

theorem test_api2_notifications_inv (r r2 r3 : Resp) :
    outcomeInv (test_api2_notifications_mutating r r2 r3) := inv_passfail _ _

theorem test_api2_upload_report_inv (r : Resp) : outcomeInv (test_api2_upload_report r) :=
  inv_passfail _ _

theorem test_api2_item_collections_inv (r : Resp) : outcomeInv (test_api2_item_collections r) :=
  inv_passfail _ _

theorem test_api2_imdb_inv (r : Resp) : outcomeInv (test_api2_imdb r) := by
  simp only [test_api2_imdb]
  split
  · exact inv_skip _ _
  · exact inv_passfail _ _

theorem test_types_inv (r : Resp) : outcomeInv (test_types r).1 := inv_passfail _ _

theorem test_genres_inv (r : Resp) : outcomeInv (test_genres r).1 := inv_passfail _ _

theorem test_countries_inv (r : Resp) : outcomeInv (test_countries r) := inv_passfail _ _

theorem test_subtitles_inv (r : Resp) : outcomeInv (test_subtitles r) := inv_passfail _ _

theorem test_search_inv (r : Resp) : outcomeInv (test_search r) := inv_passfail _ _

theorem test_similar_inv (r : Resp) : outcomeInv (test_similar r) := inv_passfail _ _

theorem test_shortcut_inv (r : Resp) : outcomeInv (test_shortcut r) := inv_passfail _ _

theorem test_trailer_inv (r : Resp) : outcomeInv (test_trailer r) := inv_passfail _ _

theorem test_comments_inv (r : Resp) : outcomeInv (test_comments r) := inv_passfail _ _

theorem test_vote_inv (r : Resp) : outcomeInv (test_vote_mutating r) := inv_passfail _ _

theorem test_collections_inv (r : Resp) : outcomeInv (test_collections r).1 := inv_passfail _ _

theorem test_collections_sort_inv (att ok : String → Resp) :
    outcomeInv (test_collections_sort att ok) := by
  simp only [test_collections_sort]
  split
  · exact inv_fail_append [] _ _
  · exact inv_passfail _ _

theorem test_collection_items_inv (r : Resp) : outcomeInv (test_collection_items r) :=
  inv_passfail _ _

theorem test_references_inv (f : String → Resp) : outcomeInv (test_references f) :=
  inv_passfail _ _

theorem test_tv_inv (r : Resp) : outcomeInv (test_tv r) := inv_passfail _ _

theorem test_watching_inv (r r2 r3 : Resp) : outcomeInv (test_watching r r2 r3).1 :=
  inv_passfail _ _

theorem test_watching_mutating_inv (r r2 : Resp) : outcomeInv (test_watching_mutating r r2) :=
  inv_passfail _ _

theorem test_watchlist_inv (r r2 : Resp) : outcomeInv (test_watchlist_toggle_mutating r r2) :=
  inv_passfail _ _

theorem test_history_inv (r : Resp) : outcomeInv (test_history r).1 := inv_passfail _ _

theorem test_history_mutating_inv (mid sid iid : Option Int) (r r2 r3 : Resp) :
    outcomeInv (test_history_mutating mid sid iid r r2 r3) := inv_passfail _ _

theorem test_device_inv (r r2 r3 r4 : Resp) : outcomeInv (test_device r r2 r3 r4).1 := by
  simp only [test_device]
  repeat' first
    | exact inv_passfail _ _
    | exact inv_fail_append _ _ _
    | exact inv_skip _ _
    | split

theorem test_device_mutating_inv (r r2 r3 : Resp) :
    outcomeInv (test_device_mutating r r2 r3) := by
  simp only [test_device_mutating]
  repeat' first
    | exact inv_passfail _ _
    | exact inv_fail_append _ _ _
    | exact inv_skip _ _
    | split

theorem test_items_listing_inv (r : Resp) : outcomeInv (test_items_listing r).1 :=
  inv_passfail _ _

theorem test_items_listing_filters_inv (r : Resp) : outcomeInv (test_items_listing_filters r) :=
  inv_passfail _ _

theorem test_item_details_inv (r : Resp) : outcomeInv (test_item_details r).1 :=
  inv_passfail _ _

theorem test_media_links_inv (r : Resp) : outcomeInv (test_media_links r).1 :=
  inv_passfail _ _

theorem test_media_video_link_inv (r : Resp) : outcomeInv (test_media_video_link r) :=
  inv_passfail _ _

theorem test_bookmarks_inv (r r2 r3 r4 r5 r6 r7 r8 : Resp) :
    outcomeInv (test_bookmarks_mutating r r2 r3 r4 r5 r6 r7 r8) := by
  simp only [test_bookmarks_mutating]
  repeat' first
    | exact inv_passfail _ _
    | exact inv_fail_append _ _ _
    | exact inv_skip _ _
    | split

/-- C9.  Every `TestOutcome` produced by a test routine, for every possible
    set of HTTP responses (and context inputs), satisfies the invariant: a
    PASS outcome has an empty error list, a FAIL outcome has at least one
    error message — so among PASS/FAIL outcomes, PASS holds exactly when the
    error list is empty — while SKIP outcomes may carry an explanatory error
    list.  One conjunct per routine of the source. -/
theorem c9_outcome_status_error_invariant :
    ∀ (r r2 r3 r4 r5 r6 r7 r8 : Resp) (f att ok : String → Resp) (mid sid iid : Option Int),
      outcomeInv (test_user r)
      ∧ outcomeInv (test_oauth_device_flow_pending r r2)
      ∧ outcomeInv (test_api2_items_search r).1
      ∧ outcomeInv (test_api2_item_details r)
      ∧ outcomeInv (test_api2_backdrop r)
      ∧ outcomeInv (test_api2_notifications_mutating r r2 r3)
      ∧ outcomeInv (test_api2_upload_report r)
      ∧ outcomeInv (test_api2_item_collections r)
      ∧ outcomeInv (test_api2_imdb r)
      ∧ outcomeInv (test_types r).1
      ∧ outcomeInv (test_genres r).1
      ∧ outcomeInv (test_countries r)
      ∧ outcomeInv (test_subtitles r)
      ∧ outcomeInv (test_search r)
      ∧ outcomeInv (test_similar r)
      ∧ outcomeInv (test_shortcut r)
      ∧ outcomeInv (test_trailer r)
      ∧ outcomeInv (test_comments r)
      ∧ outcomeInv (test_vote_mutating r)
      ∧ outcomeInv (test_collections r).1
      ∧ outcomeInv (test_collections_sort att ok)
      ∧ outcomeInv (test_collection_items r)
      ∧ outcomeInv (test_references f)
      ∧ outcomeInv (test_tv r)
      ∧ outcomeInv (test_watching r r2 r3).1
      ∧ outcomeInv (test_watching_mutating r r2)
      ∧ outcomeInv (test_watchlist_toggle_mutating r r2)
      ∧ outcomeInv (test_history r).1
      ∧ outcomeInv (test_history_mutating mid sid iid r r2 r3)
      ∧ outcomeInv (test_device r r2 r3 r4).1
      ∧ outcomeInv (test_device_mutating r r2 r3)
      ∧ outcomeInv (test_items_listing r).1
      ∧ outcomeInv (test_items_listing_filters r)
      ∧ outcomeInv (test_item_details r).1
      ∧ outcomeInv (test_media_links r).1
      ∧ outcomeInv (test_media_video_link r)
      ∧ outcomeInv (test_bookmarks_mutating r r2 r3 r4 r5 r6 r7 r8) := by
  intro r r2 r3 r4 r5 r6 r7 r8 f att ok mid sid iid
  exact ⟨test_user_inv r, test_oauth_inv r r2, test_api2_items_search_inv r,
    test_api2_item_details_inv r, test_api2_backdrop_inv r,
    test_api2_notifications_inv r r2 r3, test_api2_upload_report_inv r,
    test_api2_item_collections_inv r, test_api2_imdb_inv r, test_types_inv r,
    test_genres_inv r, test_countries_inv r, test_subtitles_inv r, test_search_inv r,
    test_similar_inv r, test_shortcut_inv r, test_trailer_inv r, test_comments_inv r,
    test_vote_inv r, test_collections_inv r, test_collections_sort_inv att ok,
    test_collection_items_inv r, test_references_inv f, test_tv_inv r,
    test_watching_inv r r2 r3, test_watching_mutating_inv r r2, test_watchlist_inv r r2,
    test_history_inv r, test_history_mutating_inv mid sid iid r r2 r3,
    test_device_inv r r2 r3 r4, test_device_mutating_inv r r2 r3, test_items_listing_inv r,
    test_items_listing_filters_inv r, test_item_details_inv r, test_media_links_inv r,
    test_media_video_link_inv r, test_bookmarks_inv r r2 r3 r4 r5 r6 r7 r8⟩

end Kino
